import Mathlib

/-!
# Verification of the `gcsetup` CLI (gcloud-setup repository)

Shallow embedding of the Go sources of the `gcsetup` command-line tool:

* `cmd/init.go`   — `runInit`, `writeFileIfNotExists`, `appendToGitignore`,
  `contains`, `containsSubstring`;
* `cmd/setup.go`  — `runSetup`, the five-step sequencer, `loadConfig`,
  `ValidateConfig`, `checkGcloud`, `checkGH`, `runCommand`,
  `runCommandSilent`, the step functions, and the `project create`
  sub-command's step functions and `promptProject`;
* the load-balancer sub-command — its five step functions and `promptLB`.

Go strings are modelled as `List Char` where byte-level content matters
(file contents) and as Lean `String` for command arguments and messages.
Effectful code is modelled in a reader/writer style: an `Env` record carries
the run-time nondeterminism (flags, the success or failure of each external
command, Go's unspecified map iteration order) and every operation returns
its `Except`-style result together with the list of observable events
(printed lines and executed external commands) it produced, in order.
-/

namespace GCSetup

/-! ## String search (`cmd/init.go`: `containsSubstring`, `contains`) -/

/-- Go `containsSubstring(s, substr)`: the loop
`for i := 0; i <= len(s)-len(substr); i++ { if s[i:i+len(substr)] == substr … }`.
The Go loop bound is an `int`; when `len(substr) > len(s)` the body never
runs, which truncated `Nat` subtraction in `s.length + 1 - substr.length`
reproduces exactly. -/
def containsSubstring (s substr : List Char) : Bool :=
  (List.range (s.length + 1 - substr.length)).any fun i =>
    decide ((s.drop i).take substr.length = substr)

/-- Go `contains(s, substr)`:
`len(s) >= len(substr) && (s == substr || len(s) > 0 && containsSubstring(s, substr))`. -/
def contains (s substr : List Char) : Bool :=
  decide (substr.length ≤ s.length) &&
    (decide (s = substr) || (decide (0 < s.length) && containsSubstring s substr))

/-- The mathematical substring relation: `sub` occurs contiguously in `s`. -/
def occursIn (sub s : List Char) : Prop :=
  ∃ t u, t ++ sub ++ u = s

/-! ## Filesystem model (`cmd/init.go`) -/

/-- A filesystem: each path is absent (`none`) or holds file contents. -/
def FS : Type := String → Option (List Char)

/-- Overwrite (or create) the file at `p` with contents `c`. -/
def fsWrite (fs : FS) (p : String) (c : List Char) : FS :=
  fun q => if q = p then some c else fs q

/-- Go `writeFileIfNotExists(path, content)`: `os.Stat` succeeding means the
path exists, in which case the function returns the error
`file already exists: <path>` and writes nothing; otherwise it writes the
file.  The filesystem is returned alongside the result so that the
unchanged-on-error behaviour is part of the model. -/
def writeFileIfNotExists (fs : FS) (path : String) (content : List Char) :
    Except String Unit × FS :=
  match fs path with
  | some _ => (.error ("file already exists: " ++ path), fs)
  | none => (.ok (), fsWrite fs path content)

/-- The literal `entry` appended by `appendToGitignore`. -/
def gitignoreEntry : List Char := ("\n# GCloud setup\n.env.gcloud\n").data

/-- The marker string searched for in the existing `.gitignore`. -/
def envGcloudStr : List Char := (".env.gcloud").data

/-- Go `appendToGitignore(path)`: if the file is readable and already
contains `.env.gcloud`, do nothing; if readable without the marker, append
`entry`; if unreadable (taken here as: absent), write a fresh file holding
exactly `entry`.  OS-level read/write errors are not modelled: the ideal
filesystem always succeeds. -/
def appendToGitignore (fs : FS) (path : String) : FS :=
  match fs path with
  | some data =>
      if contains data envGcloudStr then fs
      else fsWrite fs path (data ++ gitignoreEntry)
  | none => fsWrite fs path gitignoreEntry

/-- Go `runInit` (file effects only): create the workflow file and the env
template with `writeFileIfNotExists`, stopping at the first error, then
update `.gitignore` (whose failure is only warned about, never returned).
`filepath.Join` is modelled as `/`-concatenation; `wf` and `envT` are the
embedded template contents. -/
def runInit (fs : FS) (cwd : String) (wf envT : List Char) :
    Except String Unit × FS :=
  let workflowPath := cwd ++ "/.github/workflows/gcloud-deploy.yml"
  match writeFileIfNotExists fs workflowPath wf with
  | (.error e, fs1) => (.error e, fs1)
  | (.ok _, fs1) =>
    let envPath := cwd ++ "/.env.gcloud"
    match writeFileIfNotExists fs1 envPath envT with
    | (.error e, fs2) => (.error e, fs2)
    | (.ok _, fs2) => (.ok (), appendToGitignore fs2 (cwd ++ "/.gitignore"))

/-! ## Prompting (`promptLB`, `promptProject`) -/

/-- Whitespace as recognised by Go's `unicode.IsSpace` on the Latin-1 range:
`'\t' '\n' '\v' '\f' '\r' ' '` together with U+0085 (NEL) and U+00A0 (NBSP).
Code points above U+00FF with the Unicode space property are not modelled. -/
def isSpaceChar (c : Char) : Bool :=
  c = ' ' || c = '\t' || c = '\n' || c = '\x0b' || c = '\x0c' || c = '\r' ||
    c = '\x85' || c = '\xa0'

/-- Go `strings.TrimSpace`: remove leading and trailing whitespace. -/
def trimSpace (s : String) : String :=
  String.mk (((s.data.dropWhile isSpaceChar).reverse.dropWhile isSpaceChar).reverse)

/-- Go `promptLB(label, defaultVal)`.  Reading a line from stdin is modelled
by the `input` parameter (the raw line, newline included); in
non-interactive mode (`lbNonInteractive`, the `--yes` flag) the function
returns the default and the input parameter is never consulted. -/
def promptLB (lbNonInteractive : Bool) (label defaultVal : String)
    (input : String) : String :=
  if lbNonInteractive then defaultVal
  else
    let t := trimSpace input
    if t = "" then defaultVal else t

/-- Go `promptProject(label, defaultVal)`; textually identical to `promptLB`
except that it consults the `projectNonInteractive` flag. -/
def promptProject (projectNonInteractive : Bool) (label defaultVal : String)
    (input : String) : String :=
  if projectNonInteractive then defaultVal
  else
    let t := trimSpace input
    if t = "" then defaultVal else t

/-! ## Effect model for the setup / project / load-balancer commands -/

/-- An external command: the binary's name and its argument vector, exactly
as passed to Go's `exec.Command`. -/
structure Cmd where
  name : String
  args : List String
deriving DecidableEq

/-- An observable event of a run, in order of occurrence. -/
inductive Event : Type where
  /-- A line printed to stdout. -/
  | printEv : String → Event
  /-- An external process spawned via `exec.Command(...).Run()`. -/
  | execEv : Cmd → Event
deriving DecidableEq

/-- The run-time environment: the command-line flags, the outcome every
external command would have if executed (`oracle c = true` means `Run()`
returns no error), whether `exec.LookPath` finds the two binaries, and the
iteration order Go's runtime happens to choose for the two map literals in
`configureGitHub` (Go map iteration order is unspecified). -/
structure Env where
  dryRun : Bool
  oracle : Cmd → Bool
  gcloudFound : Bool
  ghFound : Bool
  secretOrder : List String
  varOrder : List String

/-- A computation: reads the environment, returns a Go-style
`error`-or-value result together with the events it emitted. -/
def M (α : Type) : Type := Env → Except String α × List Event

/-- `return`-like embedding. -/
def pureM {α : Type} (a : α) : M α := fun _ => (.ok a, [])

/-- Sequencing with Go's early-`return`-on-error discipline; the trace of
the first part is kept even when it fails. -/
def bindM {α β : Type} (m : M α) (f : α → M β) : M β := fun env =>
  match m env with
  | (.ok a, t) =>
      let r := f a env
      (r.1, t ++ r.2)
  | (.error e, t) => (.error e, t)

/-- `fmt.Println` / `fmt.Printf` of one line. -/
def printE (s : String) : M Unit := fun _ => (.ok (), [.printEv s])

/-- The error message `cmd.Run()` yields for a failing process.  (Go's
actual message depends on the exit status; the model fixes it.) -/
def cmdErr : String := "exit status 1"

/-- Spawn `c` and report its oracle-determined outcome. -/
def execC (c : Cmd) : M Unit := fun env =>
  if env.oracle c then (.ok (), [.execEv c])
  else (.error cmdErr, [.execEv c])

/-- Go `runCommandSilent(name, args...)`: under `--dry-run` print
`  [dry-run] name arg1 arg2 …` and return `nil`; otherwise spawn the
process.  (`runCommand` differs only by wiring stdout/stderr through, which
the model does not distinguish.) -/
def runCommandSilent (c : Cmd) : M Unit := fun env =>
  if env.dryRun then
    (.ok (), [.printEv ("  [dry-run] " ++ c.name ++ " " ++ String.intercalate " " c.args)])
  else execC c env

/-- The recurring Go pattern
`if err := exec.Command(...).Run(); err != nil { return fmt.Errorf("…: %w", err) }`:
spawn `c`; on failure return its error passed through `wrap`. -/
def execOrFail (c : Cmd) (wrap : String → String) : M Unit := fun env =>
  match execC c env with
  | (.ok _, t) => (.ok (), t)
  | (.error e, t) => (.error (wrap e), t)

/-- Go's `for _, x := range l { if err := body(x); err != nil { return err } }`. -/
def forList {α : Type} : List α → (α → M Unit) → M Unit
  | [], _ => pureM ()
  | x :: xs, f => bindM (f x) fun _ => forList xs f

/-- Run `m`; on failure print `note` and continue as if it had succeeded
(the `// Might already exist, continue` pattern). -/
def tryIgnore (m : M Unit) (note : String) : M Unit := fun env =>
  match m env with
  | (.ok _, t) => (.ok (), t)
  | (.error _, t) => (.ok (), t ++ [.printEv note])

/-- Access the environment inside a computation. -/
def withEnv {α : Type} (f : Env → M α) : M α := fun env => f env env

/-! ## Configuration (`cmd/setup.go`: `Config`, `loadConfig`,
`ValidateConfig`) -/

/-- The nine viper-provided configuration strings (flags, `.env.gcloud`
file, or environment variables), keyed as in `RequiredVars`. -/
structure RawConfig where
  gcpProjectID : String
  gcpProjectNumber : String
  gitHubOrganization : String
  gitHubRepository : String
  serviceAccountName : String
  artifactRegistryName : String
  artifactRegistryLocation : String
  cloudRunService : String
  cloudRunRegion : String
deriving DecidableEq

/-- `viper.GetString` restricted to the nine required keys. -/
def getString (rc : RawConfig) (key : String) : String :=
  if key = "GCP_PROJECT_ID" then rc.gcpProjectID
  else if key = "GCP_PROJECT_NUMBER" then rc.gcpProjectNumber
  else if key = "GITHUB_ORGANIZATION" then rc.gitHubOrganization
  else if key = "GITHUB_REPOSITORY" then rc.gitHubRepository
  else if key = "SERVICE_ACCOUNT_NAME" then rc.serviceAccountName
  else if key = "ARTIFACT_REGISTRY_NAME" then rc.artifactRegistryName
  else if key = "ARTIFACT_REGISTRY_LOCATION" then rc.artifactRegistryLocation
  else if key = "CLOUD_RUN_SERVICE" then rc.cloudRunService
  else if key = "CLOUD_RUN_REGION" then rc.cloudRunRegion
  else ""

/-- Go `RequiredVars`. -/
def RequiredVars : List String :=
  ["GCP_PROJECT_ID", "GCP_PROJECT_NUMBER", "GITHUB_ORGANIZATION",
   "GITHUB_REPOSITORY", "SERVICE_ACCOUNT_NAME", "ARTIFACT_REGISTRY_NAME",
   "ARTIFACT_REGISTRY_LOCATION", "CLOUD_RUN_SERVICE", "CLOUD_RUN_REGION"]

/-- Go `ValidateConfig`: collect the required variables whose value is
empty, in `RequiredVars` order, and fail when any is missing. -/
def ValidateConfig (rc : RawConfig) : Except String Unit :=
  let missing := RequiredVars.filter fun v => getString rc v = ""
  if missing.length > 0 then
    .error ("missing required variables:\n  - " ++ String.intercalate "\n  - " missing)
  else .ok ()

/-- Go `Config` (`cmd/setup.go`). -/
structure Config where
  projectID : String
  projectNumber : String
  gitHubOrg : String
  gitHubRepo : String
  serviceAccountName : String
  serviceAccountEmail : String
  artifactRegistryName : String
  artifactRegistryLocation : String
  cloudRunService : String
  cloudRunRegion : String
  workloadIdentityProvider : String
  artifactRegistryURL : String
deriving DecidableEq

/-- Go `loadConfig`. -/
def loadConfig (rc : RawConfig) : Config :=
  let projectID := rc.gcpProjectID
  let projectNumber := rc.gcpProjectNumber
  let saName := rc.serviceAccountName
  let arLocation := rc.artifactRegistryLocation
  let arName := rc.artifactRegistryName
  { projectID := projectID
    projectNumber := projectNumber
    gitHubOrg := rc.gitHubOrganization
    gitHubRepo := rc.gitHubRepository
    serviceAccountName := saName
    serviceAccountEmail := saName ++ "@" ++ projectID ++ ".iam.gserviceaccount.com"
    artifactRegistryName := arName
    artifactRegistryLocation := arLocation
    cloudRunService := rc.cloudRunService
    cloudRunRegion := rc.cloudRunRegion
    workloadIdentityProvider :=
      "projects/" ++ projectNumber ++
        "/locations/global/workloadIdentityPools/github-pool/providers/github-provider"
    artifactRegistryURL := arLocation ++ "-docker.pkg.dev/" ++ projectID ++ "/" ++ arName }

/-! ## Preflight checks -/

/-- Go `checkGcloud`: `exec.LookPath("gcloud")` (no process is spawned). -/
def checkGcloud : M Unit := fun env =>
  if env.gcloudFound then (.ok (), [])
  else (.error "gcloud CLI not found. Install it: https://cloud.google.com/sdk/docs/install", [])

/-- The `gh auth status` invocation inside `checkGH`. -/
def ghAuthCmd : Cmd := ⟨"gh", ["auth", "status"]⟩

/-- Go `checkGH`: `exec.LookPath("gh")`, then `exec.Command("gh", "auth",
"status").Run()` — note this spawn bypasses `runCommandSilent` and so runs
even under `--dry-run`. -/
def checkGH : M Unit := fun env =>
  if !env.ghFound then
    (.error "GitHub CLI (gh) not found. Install it: https://cli.github.com/", [])
  else
    match execC ghAuthCmd env with
    | (.ok _, t) => (.ok (), t)
    | (.error _, t) => (.error "GitHub CLI not authenticated. Run: gh auth login", t)

/-! ## The five setup steps (`cmd/setup.go`) -/

/-- The seven APIs enabled by `enableAPIs`. -/
def setupAPIs : List String :=
  ["cloudresourcemanager.googleapis.com", "iam.googleapis.com",
   "iamcredentials.googleapis.com", "artifactregistry.googleapis.com",
   "run.googleapis.com", "secretmanager.googleapis.com",
   "cloudbuild.googleapis.com"]

/-- `gcloud services enable <api> --project=<id>`. -/
def enableCmd (cfg : Config) (api : String) : Cmd :=
  ⟨"gcloud", ["services", "enable", api, "--project=" ++ cfg.projectID]⟩

/-- Go `enableAPIs`. -/
def enableAPIs (cfg : Config) : M Unit :=
  forList setupAPIs fun api =>
    bindM (printE ("  Enabling " ++ api)) fun _ =>
      runCommandSilent (enableCmd cfg api)

/-- The `gcloud iam service-accounts create …` invocation. -/
def saCreateCmd (cfg : Config) : Cmd :=
  ⟨"gcloud", ["iam", "service-accounts", "create", cfg.serviceAccountName,
    "--project=" ++ cfg.projectID,
    "--display-name=" ++ cfg.serviceAccountName ++ " Service Account",
    "--description=Service account for GitHub Actions CI/CD"]⟩

/-- The six roles granted by `createServiceAccount`. -/
def saRoles : List String :=
  ["roles/run.developer", "roles/artifactregistry.writer",
   "roles/secretmanager.secretAccessor", "roles/iam.serviceAccountUser",
   "roles/cloudbuild.builds.builder", "roles/logging.logWriter"]

/-- `gcloud projects add-iam-policy-binding <id> --member=… --role=… --condition=None`. -/
def grantCmd (cfg : Config) (role : String) : Cmd :=
  ⟨"gcloud", ["projects", "add-iam-policy-binding", cfg.projectID,
    "--member=serviceAccount:" ++ cfg.serviceAccountEmail,
    "--role=" ++ role, "--condition=None"]⟩

/-- Go `createServiceAccount`: the create's failure is swallowed with a
note, each role grant's failure is returned. -/
def createServiceAccount (cfg : Config) : M Unit :=
  bindM (printE ("  Creating service account: " ++ cfg.serviceAccountName)) fun _ =>
  bindM (tryIgnore (runCommandSilent (saCreateCmd cfg))
      "  (service account may already exist, continuing...)") fun _ =>
  forList saRoles fun role =>
    bindM (printE ("  Granting " ++ role)) fun _ =>
      runCommandSilent (grantCmd cfg role)

/-- The workload-identity-pool create invocation. -/
def poolCreateCmd (cfg : Config) : Cmd :=
  ⟨"gcloud", ["iam", "workload-identity-pools", "create", "github-pool",
    "--project=" ++ cfg.projectID, "--location=global",
    "--display-name=GitHub Actions Pool"]⟩

/-- The OIDC provider create invocation. -/
def providerCreateCmd (cfg : Config) : Cmd :=
  ⟨"gcloud", ["iam", "workload-identity-pools", "providers", "create-oidc",
    "github-provider", "--project=" ++ cfg.projectID, "--location=global",
    "--workload-identity-pool=github-pool", "--display-name=GitHub Provider",
    "--attribute-mapping=google.subject=assertion.sub,attribute.actor=assertion.actor,attribute.repository=assertion.repository",
    "--issuer-uri=https://token.actions.githubusercontent.com"]⟩

/-- The `principalSet` member string for the repository. -/
def principalMember (cfg : Config) : String :=
  "principalSet://iam.googleapis.com/projects/" ++ cfg.projectNumber ++
    "/locations/global/workloadIdentityPools/github-pool/attribute.repository/" ++
    cfg.gitHubOrg ++ "/" ++ cfg.gitHubRepo

/-- The final `add-iam-policy-binding` of `setupWorkloadIdentity`. -/
def bindingCmd (cfg : Config) : Cmd :=
  ⟨"gcloud", ["iam", "service-accounts", "add-iam-policy-binding",
    cfg.serviceAccountEmail, "--project=" ++ cfg.projectID,
    "--role=roles/iam.workloadIdentityUser", "--member=" ++ principalMember cfg]⟩

/-- Go `setupWorkloadIdentity`: pool and provider creation failures are
swallowed with notes; the binding's result is returned. -/
def setupWorkloadIdentity (cfg : Config) : M Unit :=
  bindM (printE "  Creating Workload Identity Pool...") fun _ =>
  bindM (tryIgnore (runCommandSilent (poolCreateCmd cfg))
      "  (pool may already exist, continuing...)") fun _ =>
  bindM (printE "  Creating OIDC Provider...") fun _ =>
  bindM (tryIgnore (runCommandSilent (providerCreateCmd cfg))
      "  (provider may already exist, continuing...)") fun _ =>
  bindM (printE "  Configuring repository access...") fun _ =>
  runCommandSilent (bindingCmd cfg)

/-- The artifact-repository create invocation. -/
def arCreateCmd (cfg : Config) : Cmd :=
  ⟨"gcloud", ["artifacts", "repositories", "create", cfg.artifactRegistryName,
    "--project=" ++ cfg.projectID,
    "--location=" ++ cfg.artifactRegistryLocation,
    "--repository-format=docker", "--description=Container registry for CI/CD"]⟩

/-- Go `createArtifactRegistry`: the create's failure is swallowed. -/
def createArtifactRegistry (cfg : Config) : M Unit :=
  bindM (printE ("  Creating repository: " ++ cfg.artifactRegistryName)) fun _ =>
  tryIgnore (runCommandSilent (arCreateCmd cfg))
    "  (repository may already exist, continuing...)"

/-- `<org>/<repo>`. -/
def repoSlug (cfg : Config) : String := cfg.gitHubOrg ++ "/" ++ cfg.gitHubRepo

/-- The keys of the `secrets` map literal in `configureGitHub`. -/
def secretNames : List String :=
  ["GCP_SERVICE_ACCOUNT", "GCP_WORKLOAD_IDENTITY_PROVIDER"]

/-- The value bound to each secret key. -/
def secretValue (cfg : Config) (n : String) : String :=
  if n = "GCP_SERVICE_ACCOUNT" then cfg.serviceAccountEmail
  else if n = "GCP_WORKLOAD_IDENTITY_PROVIDER" then cfg.workloadIdentityProvider
  else ""

/-- The keys of the `variables` map literal in `configureGitHub`. -/
def varNames : List String :=
  ["CLOUD_RUN_SERVICE", "CLOUD_RUN_REGION", "ARTIFACT_REGISTRY_URL"]

/-- The value bound to each variable key. -/
def varValue (cfg : Config) (n : String) : String :=
  if n = "CLOUD_RUN_SERVICE" then cfg.cloudRunService
  else if n = "CLOUD_RUN_REGION" then cfg.cloudRunRegion
  else if n = "ARTIFACT_REGISTRY_URL" then cfg.artifactRegistryURL
  else ""

/-- `gh secret set <name> --repo <org>/<repo> --body <value>`. -/
def secretSetCmd (cfg : Config) (n : String) : Cmd :=
  ⟨"gh", ["secret", "set", n, "--repo", repoSlug cfg, "--body", secretValue cfg n]⟩

/-- `gh variable set <name> --repo <org>/<repo> --body <value>`. -/
def varSetCmd (cfg : Config) (n : String) : Cmd :=
  ⟨"gh", ["variable", "set", n, "--repo", repoSlug cfg, "--body", varValue cfg n]⟩

/-- One iteration of the secrets loop: print the name; under `--dry-run`
print the command line (without the secret value) and continue, else spawn
`gh secret set`, wrapping a failure as `failed to set secret <name>: <err>`. -/
def setSecret (cfg : Config) (n : String) : M Unit :=
  bindM (printE ("    " ++ n)) fun _ => fun env =>
    if env.dryRun then
      (.ok (), [.printEv ("    [dry-run] gh secret set " ++ n ++ " --repo " ++ repoSlug cfg)])
    else
      execOrFail (secretSetCmd cfg n)
        (fun e => "failed to set secret " ++ n ++ ": " ++ e) env

/-- One iteration of the variables loop, analogous to `setSecret`. -/
def setVariable (cfg : Config) (n : String) : M Unit :=
  bindM (printE ("    " ++ n)) fun _ => fun env =>
    if env.dryRun then
      (.ok (), [.printEv ("    [dry-run] gh variable set " ++ n ++ " --repo " ++ repoSlug cfg)])
    else
      execOrFail (varSetCmd cfg n)
        (fun e => "failed to set variable " ++ n ++ ": " ++ e) env

/-- Go `configureGitHub`: the two `for name, value := range` loops iterate
in the order the Go runtime chose for each map (`env.secretOrder`,
`env.varOrder`). -/
def configureGitHub (cfg : Config) : M Unit :=
  bindM (printE "  Setting secrets...") fun _ =>
  bindM (withEnv fun env => forList env.secretOrder (setSecret cfg)) fun _ =>
  bindM (printE "  Setting variables...") fun _ =>
  withEnv fun env => forList env.varOrder (setVariable cfg)

/-! ## The sequencer (`runSetup` and its steps loop) -/

/-- The static five-step list of `runSetup`, in source order. -/
def setupSteps : List (String × (Config → M Unit)) :=
  [("Enabling APIs", enableAPIs),
   ("Creating Service Account", createServiceAccount),
   ("Setting up Workload Identity Federation", setupWorkloadIdentity),
   ("Creating Artifact Registry", createArtifactRegistry),
   ("Configuring GitHub Repository", configureGitHub)]

/-- The 46-character `=` separator line of the banners. -/
def eqLine : String := String.mk (List.replicate 46 '=')

/-- The 46-character `-` separator line printed under each step header. -/
def dashLine : String := String.mk (List.replicate 46 '-')

/-- The two header lines printed before step `i` of `total`. -/
def stepHeader (i total : Nat) (n : String) : List Event :=
  [.printEv ("Step " ++ toString i ++ "/" ++ toString total ++ ": " ++ n ++ "..."),
   .printEv dashLine]

/-- The `for i, step := range steps` loop shared by `runSetup`,
`runProjectCreate` and `runLoadBalancer`: print the header, run the step,
wrap a failure as `<name> failed: <err>` and return it at once, else print
a blank line and continue with the next step. -/
def runStepsFrom {γ : Type} (total : Nat) :
    Nat → List (String × (γ → M Unit)) → γ → M Unit
  | _, [], _ => pureM ()
  | i, (n, f) :: rest, cfg => fun env =>
      match f cfg env with
      | (.ok _, t) =>
          let r := runStepsFrom total (i + 1) rest cfg env
          (r.1, stepHeader i total n ++ t ++ [.printEv ""] ++ r.2)
      | (.error e, t) =>
          (.error (n ++ " failed: " ++ e), stepHeader i total n ++ t)

/-- The banner printed by `runSetup` before the steps. -/
def setupBanner (cfg : Config) : List Event :=
  [.printEv eqLine,
   .printEv "GCloud Project Setup",
   .printEv eqLine,
   .printEv ("Project ID:     " ++ cfg.projectID),
   .printEv ("Project Number: " ++ cfg.projectNumber),
   .printEv ("GitHub:         " ++ cfg.gitHubOrg ++ "/" ++ cfg.gitHubRepo),
   .printEv eqLine,
   .printEv ""]

/-- The success message printed after all steps. -/
def setupSuccessTrailer : List Event :=
  [.printEv eqLine,
   .printEv "Setup Complete!",
   .printEv eqLine,
   .printEv "",
   .printEv "Your repository is fully configured.",
   .printEv "Push to main or create a PR to trigger a deployment."]

/-- Go `runSetup`: validate the configuration, check the two CLIs, print
the banner, run the five steps, print the trailer. -/
def runSetup (rc : RawConfig) : M Unit :=
  bindM (fun _ => (ValidateConfig rc, [])) fun _ =>
  bindM checkGcloud fun _ =>
  bindM checkGH fun _ =>
  let cfg := loadConfig rc
  bindM (fun _ => (.ok (), setupBanner cfg)) fun _ =>
  bindM (runStepsFrom 5 1 setupSteps cfg) fun _ =>
  fun _ => (.ok (), setupSuccessTrailer)

/-- Go `Execute` (root command): on error, print it to stderr and
`os.Exit(1)`; otherwise the process ends normally with status 0.  Returned
as (exit status, stderr lines). -/
def Execute (result : Except String Unit) : Nat × List String :=
  match result with
  | .ok _ => (0, [])
  | .error e => (1, [e])

/-! ## The `project create` sub-command's steps -/

/-- Go `ProjectConfig`. -/
structure ProjectConfig where
  projectID : String
  projectNumber : String
  projectName : String
  serviceAccountName : String
  serviceAccountEmail : String
  artifactRegistryName : String
  artifactRegistryLocation : String
  workloadIdentityProvider : String
  artifactRegistryURL : String
deriving DecidableEq

/-- Go `createGCPProject`. -/
def createGCPProject (cfg : ProjectConfig) : M Unit := fun env =>
  if env.dryRun then
    (.ok (), [.printEv ("  [dry-run] gcloud projects create " ++ cfg.projectID ++
      " --name=\"" ++ cfg.projectName ++ "\"")])
  else
    (bindM (printE ("  Creating project '" ++ cfg.projectID ++ "'...")) fun _ =>
     bindM (execOrFail ⟨"gcloud", ["projects", "create", cfg.projectID,
          "--name=" ++ cfg.projectName]⟩
        (fun e => "failed to create project: " ++ e)) fun _ =>
     printE ("  ✓ Project '" ++ cfg.projectID ++ "' created")) env

/-- The six APIs enabled by `enableProjectAPIs`. -/
def projectAPIs : List String :=
  ["cloudresourcemanager.googleapis.com", "serviceusage.googleapis.com",
   "iam.googleapis.com", "artifactregistry.googleapis.com",
   "iamcredentials.googleapis.com", "cloudkms.googleapis.com"]

/-- Go `enableProjectAPIs`. -/
def enableProjectAPIs (cfg : ProjectConfig) : M Unit := fun env =>
  if env.dryRun then
    (.ok (), projectAPIs.map fun api =>
      .printEv ("  [dry-run] gcloud services enable " ++ api ++ " --project=" ++ cfg.projectID))
  else
    (bindM (printE ("  Enabling APIs for project '" ++ cfg.projectID ++ "'...")) fun _ =>
     bindM (forList projectAPIs fun api =>
        bindM (printE ("    Enabling " ++ api)) fun _ =>
          execOrFail ⟨"gcloud", ["services", "enable", api,
              "--project=" ++ cfg.projectID]⟩
            (fun e => "failed to enable API " ++ api ++ ": " ++ e)) fun _ =>
     printE "  ✓ APIs enabled") env

/-- Go `createProjectServiceAccount` (the email it assigns is to a local
copy of the struct and is never observed by a later step). -/
def createProjectServiceAccount (cfg : ProjectConfig) : M Unit := fun env =>
  if env.dryRun then
    (.ok (), [.printEv ("  [dry-run] gcloud iam service-accounts create " ++
      cfg.serviceAccountName ++ " --project=" ++ cfg.projectID)])
  else
    (bindM (printE ("  Creating service account '" ++ cfg.serviceAccountName ++ "'...")) fun _ =>
     bindM (execOrFail ⟨"gcloud", ["iam", "service-accounts", "create",
          cfg.serviceAccountName, "--project=" ++ cfg.projectID]⟩
        (fun e => "failed to create service account: " ++ e)) fun _ =>
     printE ("  ✓ Service account created: " ++ cfg.serviceAccountName ++ "@" ++
       cfg.projectID ++ ".iam.gserviceaccount.com")) env

/-- Go `setupProjectWorkloadIdentity`. -/
def setupProjectWorkloadIdentity (cfg : ProjectConfig) : M Unit := fun env =>
  if env.dryRun then
    (.ok (), [.printEv "  [dry-run] Setting up Workload Identity Federation",
      .printEv ("  [dry-run] gcloud iam workload-identity-pools create github-pool --project=" ++
        cfg.projectID ++ " --location=global"),
      .printEv "  [dry-run] gcloud iam workload-identity-pools providers create-oidc github-provider ..."])
  else
    (bindM (printE "  Setting up Workload Identity Federation...") fun _ =>
     bindM (printE "    Creating workload identity pool 'github-pool'") fun _ =>
     bindM (execOrFail ⟨"gcloud", ["iam", "workload-identity-pools", "create",
          "github-pool", "--project=" ++ cfg.projectID, "--location=global",
          "--display-name=GitHub"]⟩
        (fun e => "failed to create workload identity pool: " ++ e)) fun _ =>
     bindM (printE "    Creating OIDC provider 'github-provider'") fun _ =>
     bindM (execOrFail ⟨"gcloud", ["iam", "workload-identity-pools", "providers",
          "create-oidc", "github-provider", "--project=" ++ cfg.projectID,
          "--location=global", "--workload-identity-pool=github-pool",
          "--display-name=GitHub",
          "--attribute-mapping=google.subject=assertion.sub,assertion.aud=assertion.aud",
          "--issuer-uri=https://token.actions.githubusercontent.com"]⟩
        (fun e => "failed to create OIDC provider: " ++ e)) fun _ =>
     printE "  ✓ Workload Identity Federation configured") env

/-- Go `createProjectArtifactRegistry`. -/
def createProjectArtifactRegistry (cfg : ProjectConfig) : M Unit := fun env =>
  if env.dryRun then
    (.ok (), [.printEv ("  [dry-run] gcloud artifacts repositories create " ++
      cfg.artifactRegistryName ++ " --repository-format=docker --location=" ++
      cfg.artifactRegistryLocation ++ " --project=" ++ cfg.projectID)])
  else
    (bindM (printE ("  Creating artifact registry '" ++ cfg.artifactRegistryName ++ "'...")) fun _ =>
     bindM (execOrFail ⟨"gcloud", ["artifacts", "repositories", "create",
          cfg.artifactRegistryName, "--repository-format=docker",
          "--location=" ++ cfg.artifactRegistryLocation,
          "--project=" ++ cfg.projectID]⟩
        (fun e => "failed to create artifact registry: " ++ e)) fun _ =>
     printE ("  ✓ Artifact registry created: " ++ cfg.artifactRegistryLocation ++
       "-docker.pkg.dev/" ++ cfg.projectID ++ "/" ++ cfg.artifactRegistryName)) env

/-- The static five-step list of `runProjectCreate`, in source order. -/
def projectSteps : List (String × (ProjectConfig → M Unit)) :=
  [("Creating GCP Project", createGCPProject),
   ("Enabling APIs", enableProjectAPIs),
   ("Creating Service Account", createProjectServiceAccount),
   ("Setting up Workload Identity Federation", setupProjectWorkloadIdentity),
   ("Creating Artifact Registry", createProjectArtifactRegistry)]

/-- The steps loop of `runProjectCreate`. -/
def runProjectSteps (cfg : ProjectConfig) : M Unit :=
  runStepsFrom 5 1 projectSteps cfg

/-! ## The `loadbalancer setup` sub-command's steps -/

/-- Go `LoadBalancerService`. -/
structure LoadBalancerService where
  name : String
  protocol : String
  port : Nat
  path : String
  healthCheck : String
deriving DecidableEq

/-- Go `LoadBalancerConfig`. -/
structure LoadBalancerConfig where
  projectID : String
  projectNumber : String
  lbName : String
  region : String
  network : String
  subnet : String
  services : List LoadBalancerService
  healthCheckPort : Nat
  useSSL : Bool
  sslCertificate : String
deriving DecidableEq

/-- The describe-before-create pattern of the load-balancer steps: spawn
the `describe` command; if it succeeds print `existsMsg` and stop, else
continue with `rest` (the describe's own failure is not an error). -/
def describeElse (dc : Cmd) (existsMsg : String) (rest : M Unit) : M Unit := fun env =>
  match execC dc env with
  | (.ok _, t) => (.ok (), t ++ [.printEv existsMsg])
  | (.error _, t) =>
      let r := rest env
      (r.1, t ++ r.2)

/-- Go `createHealthChecks`. -/
def createHealthChecks (cfg : LoadBalancerConfig) : M Unit :=
  forList cfg.services fun service => fun env =>
    if env.dryRun then
      (.ok (), [.printEv ("gcloud compute health-checks create http \"" ++
        service.healthCheck ++ "\" \\\n  --global \\\n  --port=" ++
        toString cfg.healthCheckPort ++ " \\\n  --request-path=\"/healthz\" \\\n  --project=\"" ++
        cfg.projectID ++ "\"")])
    else
      describeElse
        ⟨"gcloud", ["compute", "health-checks", "describe", service.healthCheck,
          "--global", "--project", cfg.projectID]⟩
        ("  ✓ Health check '" ++ service.healthCheck ++ "' already exists")
        (bindM (printE ("  Creating health check '" ++ service.healthCheck ++ "'...")) fun _ =>
         bindM (execOrFail ⟨"gcloud", ["compute", "health-checks", "create", "http",
              service.healthCheck, "--global",
              "--port=" ++ toString cfg.healthCheckPort,
              "--request-path=/healthz",
              "--project=" ++ cfg.projectID]⟩
            (fun e => "failed to create health check: " ++ e)) fun _ =>
         printE ("  ✓ Health check '" ++ service.healthCheck ++ "' created")) env

/-- Go `createBackendServices`.  (Its write of `cfg.Services[i].HealthCheck`
through the shared slice is not modelled: no later step reads that field.) -/
def createBackendServices (cfg : LoadBalancerConfig) : M Unit :=
  forList cfg.services fun service => fun env =>
    let backendName := service.name ++ "-backend"
    let protocol := if service.protocol = "HTTPS" then "HTTPS" else "HTTP"
    if env.dryRun then
      (.ok (), [.printEv ("  [dry-run] Creating backend service '" ++ backendName ++ "'")])
    else
      describeElse
        ⟨"gcloud", ["compute", "backend-services", "describe", backendName,
          "--global", "--project", cfg.projectID]⟩
        ("  ✓ Backend service '" ++ backendName ++ "' already exists")
        (bindM (printE ("  Creating backend service '" ++ backendName ++ "'...")) fun _ =>
         bindM (execOrFail ⟨"gcloud", ["compute", "backend-services", "create",
              backendName, "--global", "--protocol=" ++ protocol,
              "--port-name=http", "--health-checks=" ++ service.healthCheck,
              "--load-balancing-scheme=EXTERNAL", "--enable-cdn",
              "--project=" ++ cfg.projectID]⟩
            (fun e => "failed to create backend service: " ++ e)) fun _ =>
         printE ("  ✓ Backend service '" ++ backendName ++ "' created")) env

/-- Go `createURLMap`.  (`cfg.Services[0]` would crash Go on an empty
service list; the model substitutes the empty name there.) -/
def createURLMap (cfg : LoadBalancerConfig) : M Unit := fun env =>
  let urlMapName := cfg.lbName ++ "-url-map"
  if env.dryRun then
    (.ok (), [.printEv ("  [dry-run] Creating URL map '" ++ urlMapName ++ "'")])
  else
    describeElse
      ⟨"gcloud", ["compute", "url-maps", "describe", urlMapName,
        "--project", cfg.projectID]⟩
      ("  ✓ URL map '" ++ urlMapName ++ "' already exists")
      (let defaultBackend := ((cfg.services.head?.map (·.name)).getD "") ++ "-backend"
       bindM (printE ("  Creating URL map '" ++ urlMapName ++ "'...")) fun _ =>
       bindM (execOrFail ⟨"gcloud", ["compute", "url-maps", "create", urlMapName,
            "--default-service=" ++ defaultBackend,
            "--project=" ++ cfg.projectID]⟩
          (fun e => "failed to create URL map: " ++ e)) fun _ =>
       bindM (forList cfg.services fun service =>
          let backendName := service.name ++ "-backend"
          bindM (printE ("  Adding path rule '" ++ service.path ++ "' -> " ++ backendName)) fun _ =>
          tryIgnore (execC ⟨"gcloud", ["compute", "url-maps", "add-path-rule", urlMapName,
              "--service=" ++ backendName, "--path-pattern=" ++ service.path,
              "--project=" ++ cfg.projectID]⟩)
            ("  ⚠ Could not add path rule (may already exist): " ++ cmdErr)) fun _ =>
       printE ("  ✓ URL map '" ++ urlMapName ++ "' created")) env

/-- Go `createHTTPSProxy`. -/
def createHTTPSProxy (cfg : LoadBalancerConfig) : M Unit := fun env =>
  let proxyName := cfg.lbName ++ "-proxy"
  let urlMapName := cfg.lbName ++ "-url-map"
  if env.dryRun then
    (.ok (), [.printEv ("  [dry-run] Creating HTTP(S) proxy '" ++ proxyName ++ "'")])
  else
    let protocol := if cfg.useSSL then "HTTPS" else "HTTP"
    describeElse
      ⟨"gcloud", ["compute",
        (if cfg.useSSL then "https-proxies" else "http-proxies"), "describe",
        proxyName, "--global", "--project", cfg.projectID]⟩
      ("  ✓ " ++ protocol ++ " proxy '" ++ proxyName ++ "' already exists")
      (bindM (printE ("  Creating " ++ protocol ++ " proxy '" ++ proxyName ++ "'...")) fun _ =>
       bindM (if cfg.useSSL then
            execOrFail ⟨"gcloud", ["compute", "https-proxies", "create", proxyName,
                "--url-map=" ++ urlMapName,
                "--ssl-certificates=" ++ cfg.sslCertificate,
                "--project=" ++ cfg.projectID]⟩
              (fun e => "failed to create HTTPS proxy: " ++ e)
          else
            execOrFail ⟨"gcloud", ["compute", "http-proxies", "create", proxyName,
                "--url-map=" ++ urlMapName,
                "--project=" ++ cfg.projectID]⟩
              (fun e => "failed to create HTTP proxy: " ++ e)) fun _ =>
       printE ("  ✓ " ++ protocol ++ " proxy '" ++ proxyName ++ "' created")) env

/-- Go `createForwardingRule`. -/
def createForwardingRule (cfg : LoadBalancerConfig) : M Unit := fun env =>
  let ruleName := cfg.lbName ++ "-forwarding-rule"
  let proxyName := cfg.lbName ++ "-proxy"
  let protocol := if cfg.useSSL then "https" else "http"
  let port := if cfg.useSSL then 443 else 80
  if env.dryRun then
    (.ok (), [.printEv ("  [dry-run] Creating forwarding rule '" ++ ruleName ++ "'")])
  else
    describeElse
      ⟨"gcloud", ["compute", "forwarding-rules", "describe", ruleName,
        "--global", "--project", cfg.projectID]⟩
      ("  ✓ Forwarding rule '" ++ ruleName ++ "' already exists")
      (bindM (printE ("  Creating forwarding rule '" ++ ruleName ++ "'...")) fun _ =>
       bindM (execOrFail ⟨"gcloud", ["compute", "forwarding-rules", "create",
            ruleName, "--global",
            "--target-" ++ protocol ++ "-proxy=" ++ proxyName,
            "--address=" ++ cfg.lbName ++ "-ip",
            "--ports=" ++ toString port,
            "--project=" ++ cfg.projectID]⟩
          (fun e => "failed to create forwarding rule: " ++ e)) fun _ =>
       printE ("  ✓ Forwarding rule '" ++ ruleName ++ "' created")) env

/-- The static five-step list of `runLoadBalancer`, in source order. -/
def lbSteps : List (String × (LoadBalancerConfig → M Unit)) :=
  [("Creating Health Checks", createHealthChecks),
   ("Creating Backend Services", createBackendServices),
   ("Creating URL Map", createURLMap),
   ("Creating HTTP(S) Proxy", createHTTPSProxy),
   ("Creating Forwarding Rule", createForwardingRule)]

/-- The steps loop of `runLoadBalancer`. -/
def runLBSteps (cfg : LoadBalancerConfig) : M Unit :=
  runStepsFrom 5 1 lbSteps cfg

/-! ## Auxiliary notions used by the statements -/

/-- Invariant of a computation: every external command it can ever spawn
satisfies `P` in the spawning environment. -/
def CmdsOK (P : Env → Cmd → Prop) {α : Type} (m : M α) : Prop :=
  ∀ env c, Event.execEv c ∈ (m env).2 → P env c

/-- The binary is one of the two CLIs the tool orchestrates. -/
def gcloudOrGh : Env → Cmd → Prop := fun _ c =>
  c.name = "gcloud" ∨ c.name = "gh"

/-- Boolean test for process-spawn events. -/
def isExecB : Event → Bool
  | .execEv _ => true
  | .printEv _ => false

/-- The `  [dry-run] name arg1 …` line `runCommandSilent` prints. -/
def dryCmdLine (c : Cmd) : String :=
  "  [dry-run] " ++ c.name ++ " " ++ String.intercalate " " c.args

/-- The two header lines of step `i` of `total`, as strings. -/
def stepHeaderLines (i total : Nat) (n : String) : List String :=
  ["Step " ++ toString i ++ "/" ++ toString total ++ ": " ++ n ++ "...",
   dashLine]

/-- Restatement of the spec's words for the dry-run mode ("prints instead
of executes"): the exact sequence of lines a `--dry-run` execution of the
five setup steps prints, given the map iteration orders `so` and `vo` the
runtime chose — for every operation, its command line prefixed with
`[dry-run]`.  Compared below against the trace the embedded code
produces. -/
def dryRunStepsLines (cfg : Config) (so vo : List String) : List String :=
  stepHeaderLines 1 5 "Enabling APIs" ++
  (setupAPIs.map fun api =>
    ["  Enabling " ++ api, dryCmdLine (enableCmd cfg api)]).flatten ++
  [""] ++
  stepHeaderLines 2 5 "Creating Service Account" ++
  ["  Creating service account: " ++ cfg.serviceAccountName,
   dryCmdLine (saCreateCmd cfg)] ++
  (saRoles.map fun role =>
    ["  Granting " ++ role, dryCmdLine (grantCmd cfg role)]).flatten ++
  [""] ++
  stepHeaderLines 3 5 "Setting up Workload Identity Federation" ++
  ["  Creating Workload Identity Pool...",
   dryCmdLine (poolCreateCmd cfg),
   "  Creating OIDC Provider...",
   dryCmdLine (providerCreateCmd cfg),
   "  Configuring repository access...",
   dryCmdLine (bindingCmd cfg)] ++
  [""] ++
  stepHeaderLines 4 5 "Creating Artifact Registry" ++
  ["  Creating repository: " ++ cfg.artifactRegistryName,
   dryCmdLine (arCreateCmd cfg)] ++
  [""] ++
  stepHeaderLines 5 5 "Configuring GitHub Repository" ++
  ["  Setting secrets..."] ++
  (so.map fun n =>
    ["    " ++ n,
     "    [dry-run] gh secret set " ++ n ++ " --repo " ++ repoSlug cfg]).flatten ++
  ["  Setting variables..."] ++
  (vo.map fun n =>
    ["    " ++ n,
     "    [dry-run] gh variable set " ++ n ++ " --repo " ++ repoSlug cfg]).flatten ++
  [""]

/-- The dry-run lines as print events. -/
def dryRunStepsTrace (cfg : Config) (so vo : List String) : List Event :=
  (dryRunStepsLines cfg so vo).map Event.printEv

/-! ## Concrete instances used by witnesses and counterexamples -/

/-- A fully populated configuration. -/
def rc0 : RawConfig :=
  ⟨"my-proj", "123456", "acme", "widget", "github-actions", "docker",
   "us-central1", "api", "us-central1"⟩

/-- The loaded configuration for `rc0`. -/
def cfg0 : Config := loadConfig rc0

/-- A dry-run environment whose runtime picked the source order for both
maps. -/
def envDryA : Env :=
  { dryRun := true, oracle := fun _ => true, gcloudFound := true,
    ghFound := true,
    secretOrder := ["GCP_SERVICE_ACCOUNT", "GCP_WORKLOAD_IDENTITY_PROVIDER"],
    varOrder := ["CLOUD_RUN_SERVICE", "CLOUD_RUN_REGION", "ARTIFACT_REGISTRY_URL"] }

/-- The same run-time conditions, except the runtime happened to iterate
the secrets map in the other order. -/
def envDryB : Env :=
  { dryRun := true, oracle := fun _ => true, gcloudFound := true,
    ghFound := true,
    secretOrder := ["GCP_WORKLOAD_IDENTITY_PROVIDER", "GCP_SERVICE_ACCOUNT"],
    varOrder := ["CLOUD_RUN_SERVICE", "CLOUD_RUN_REGION", "ARTIFACT_REGISTRY_URL"] }

/-- A non-dry-run environment in which every external command fails. -/
def envFail : Env :=
  { dryRun := false, oracle := fun _ => false, gcloudFound := true,
    ghFound := true, secretOrder := secretNames, varOrder := varNames }

/-- A non-dry-run environment in which only `gh auth status` succeeds. -/
def envAuthOnly : Env :=
  { dryRun := false, oracle := fun c => decide (c = ghAuthCmd),
    gcloudFound := true, ghFound := true, secretOrder := secretNames,
    varOrder := varNames }

/-- A non-dry-run environment in which every external command succeeds. -/
def envOk : Env :=
  { dryRun := false, oracle := fun _ => true, gcloudFound := true,
    ghFound := true, secretOrder := secretNames, varOrder := varNames }

/-- A concrete project configuration. -/
def pcfg0 : ProjectConfig :=
  ⟨"my-proj", "123456", "My Project", "github-actions", "", "docker",
   "us-central1", "", ""⟩

/-- A concrete load-balancer service. -/
def lbsvc0 : LoadBalancerService := ⟨"svc1", "HTTP", 8080, "/svc1/*", "svc1-hc"⟩

/-- A concrete load-balancer configuration. -/
def lcfg0 : LoadBalancerConfig :=
  ⟨"my-proj", "123456", "gcloud-lb", "us-central1", "default", "", [lbsvc0],
   8080, false, ""⟩

/-- A filesystem holding exactly one file, `/w/.env.gcloud`. -/
def fs0 : FS := fun p => if p = "/w/.env.gcloud" then some ("X".data) else none

/-! # Theorems

## Shared helper lemmas -/

/-- `contains` agrees with the mathematical substring relation. -/
theorem contains_eq_true_iff (s substr : List Char) :
    contains s substr = true ↔ occursIn substr s := by
  constructor
  · intro h
    simp only [contains, Bool.and_eq_true, Bool.or_eq_true, decide_eq_true_eq] at h
    obtain ⟨hlen, hcase⟩ := h
    rcases hcase with heq | ⟨hpos, hsub⟩
    · exact ⟨[], [], by simp [heq]⟩
    · simp only [containsSubstring, List.any_eq_true, List.mem_range,
        decide_eq_true_eq] at hsub
      obtain ⟨i, hi, htake⟩ := hsub
      refine ⟨s.take i, (s.drop i).drop substr.length, ?_⟩
      calc s.take i ++ substr ++ (s.drop i).drop substr.length
          = s.take i ++ ((s.drop i).take substr.length ++ (s.drop i).drop substr.length) := by
            rw [htake, List.append_assoc]
        _ = s.take i ++ s.drop i := by rw [List.take_append_drop]
        _ = s := List.take_append_drop i s
  · rintro ⟨t, u, rfl⟩
    have hlen : substr.length ≤ (t ++ substr ++ u).length := by
      simp [List.length_append]; omega
    simp only [contains, Bool.and_eq_true, Bool.or_eq_true, decide_eq_true_eq]
    refine ⟨hlen, ?_⟩
    by_cases heq : t ++ substr ++ u = substr
    · exact Or.inl heq
    · refine Or.inr ⟨?_, ?_⟩
      · rcases Nat.eq_zero_or_pos (t ++ substr ++ u).length with h0 | hpos
        · exfalso
          simp only [List.length_append, Nat.add_eq_zero] at h0
          obtain ⟨⟨ht, hs⟩, hu⟩ := h0
          apply heq
          simp [List.length_eq_zero.mp ht, List.length_eq_zero.mp hs,
            List.length_eq_zero.mp hu]
        · exact hpos
      · simp only [containsSubstring, List.any_eq_true, List.mem_range,
          decide_eq_true_eq]
        refine ⟨t.length, ?_, ?_⟩
        · simp [List.length_append]; omega
        · rw [List.append_assoc, List.drop_left, List.take_left]

/-- The trimmed list is empty exactly when every character is whitespace. -/
theorem trim_list_nil_iff (l : List Char) :
    ((l.dropWhile isSpaceChar).reverse.dropWhile isSpaceChar).reverse = [] ↔
      l.all isSpaceChar = true := by
  induction l with
  | nil => simp
  | cons c cs ih =>
    by_cases hc : isSpaceChar c = true
    · simp [List.dropWhile_cons, hc, ih]
    · simp only [List.dropWhile_cons, hc, if_neg, List.all_cons]
      constructor
      · intro h
        exfalso
        rw [List.reverse_eq_nil_iff, List.dropWhile_eq_nil_iff] at h
        exact hc (h c (by simp))
      · intro h
        simp [hc] at h

/-- `trimSpace` returns the empty string exactly on all-whitespace input. -/
theorem trimSpace_eq_empty_iff (s : String) :
    trimSpace s = "" ↔ s.data.all isSpaceChar = true := by
  rw [← trim_list_nil_iff]
  constructor
  · intro h
    have := congrArg String.data h
    simpa [trimSpace] using this
  · intro h
    simp [trimSpace, h]

/-- Appending distinct suffixes to the same directory yields distinct paths. -/
theorem path_ne {a b : String} (cwd : String) (h : a ≠ b) :
    cwd ++ a ≠ cwd ++ b := by
  intro hc
  apply h
  have hd := congrArg String.data hc
  simp only [String.data_append] at hd
  exact String.ext (List.append_cancel_left hd)

/-! ## C10: `contains` decides the substring relation -/

/-- Claim C10: for all strings `s` and `substr`, `contains s substr`
returns `true` iff `substr` occurs as a contiguous substring of `s`; in
particular it returns `true` for the empty substring and for equal strings,
and `false` when `substr` is longer than `s`. -/
theorem contains_decides_substring (s substr : List Char) :
    (contains s substr = true ↔ occursIn substr s) ∧
    contains s [] = true ∧
    contains s s = true ∧
    (s.length < substr.length → contains s substr = false) := by
  refine ⟨contains_eq_true_iff s substr, ?_, ?_, ?_⟩
  · exact (contains_eq_true_iff s []).mpr ⟨[], s, by simp⟩
  · exact (contains_eq_true_iff s s).mpr ⟨[], [], by simp⟩
  · intro hlt
    cases h : contains s substr with
    | false => rfl
    | true =>
      exfalso
      obtain ⟨t, u, habc⟩ := (contains_eq_true_iff s substr).mp h
      have := congrArg List.length habc
      simp only [List.length_append] at this
      omega

/-- Witness for C10 at concrete inputs. -/
theorem contains_decides_substring_witness :
    ("ab".data.length < "abc".data.length) ∧ contains "ab".data "abc".data = false :=
  ⟨by decide, (contains_decides_substring "ab".data "abc".data).2.2.2 (by decide)⟩

/-! ## C9: `appendToGitignore` is idempotent -/

/-- Claim C9: after `appendToGitignore` the `.gitignore` file contains
`.env.gcloud`; a file already containing it is left unchanged; and running
the function twice equals running it once. -/
theorem appendToGitignore_idempotent (fs : FS) (path : String) :
    (∃ d, appendToGitignore fs path path = some d ∧ contains d envGcloudStr = true) ∧
    (∀ data, fs path = some data → contains data envGcloudStr = true →
      appendToGitignore fs path = fs) ∧
    appendToGitignore (appendToGitignore fs path) path = appendToGitignore fs path := by
  have hentry : contains gitignoreEntry envGcloudStr = true := by decide
  cases hp : fs path with
  | none =>
    refine ⟨⟨gitignoreEntry, ?_, hentry⟩, ?_, ?_⟩
    · simp [appendToGitignore, hp, fsWrite]
    · intro data hd
      simp at hd
    · simp [appendToGitignore, hp, fsWrite, hentry]
  | some data =>
    cases hc : contains data envGcloudStr with
    | true =>
      refine ⟨⟨data, ?_, hc⟩, ?_, ?_⟩
      · simp [appendToGitignore, hp, hc]
      · intro d hd _
        simp [appendToGitignore, hp, hc]
      · simp [appendToGitignore, hp, hc]
    | false =>
      have happ : contains (data ++ gitignoreEntry) envGcloudStr = true := by
        obtain ⟨a, b, hab⟩ := (contains_eq_true_iff gitignoreEntry envGcloudStr).mp hentry
        exact (contains_eq_true_iff _ _).mpr
          ⟨data ++ a, b, by rw [← hab]; simp [List.append_assoc]⟩
      refine ⟨⟨data ++ gitignoreEntry, ?_, happ⟩, ?_, ?_⟩
      · simp [appendToGitignore, hp, hc, fsWrite]
      · intro d hd hcd
        injection hd with hd2
        subst hd2
        rw [hcd] at hc; cases hc
      · simp [appendToGitignore, hp, hc, fsWrite, happ]

/-- Witness for C9 at a concrete filesystem: the no-change case. -/
theorem appendToGitignore_idempotent_witness :
    fs0 "/w/.gitignore" = none ∧
    appendToGitignore (appendToGitignore fs0 "/w/.gitignore") "/w/.gitignore" =
      appendToGitignore fs0 "/w/.gitignore" :=
  ⟨by decide, (appendToGitignore_idempotent fs0 "/w/.gitignore").2.2⟩

/-! ## C8: `writeFileIfNotExists` never overwrites -/

/-- Claim C8: `writeFileIfNotExists` errors exactly when the target exists,
leaves the filesystem untouched on error, writes the file when absent, and
consequently `runInit` never changes the contents of a pre-existing
workflow file or `.env.gcloud`. -/
theorem writeFileIfNotExists_no_overwrite (fs : FS) (path : String) (content : List Char) :
    ((∃ e, (writeFileIfNotExists fs path content).1 = .error e) ↔ (fs path).isSome = true) ∧
    ((fs path).isSome = true → (writeFileIfNotExists fs path content).2 = fs) ∧
    (fs path = none → writeFileIfNotExists fs path content = (.ok (), fsWrite fs path content)) ∧
    (∀ cwd wf envT p d, fs p = some d →
      (p = cwd ++ "/.github/workflows/gcloud-deploy.yml" ∨ p = cwd ++ "/.env.gcloud") →
      (runInit fs cwd wf envT).2 p = some d) := by
  refine ⟨?_, ?_, ?_, ?_⟩
  · cases hp : fs path <;> simp [writeFileIfNotExists, hp]
  · intro hs
    cases hp : fs path with
    | none => rw [hp] at hs; cases hs
    | some d => simp [writeFileIfNotExists, hp]
  · intro hp
    simp [writeFileIfNotExists, hp]
  · intro cwd wf envT p d hpd hpor
    have hwe : cwd ++ "/.github/workflows/gcloud-deploy.yml" ≠ cwd ++ "/.env.gcloud" :=
      path_ne cwd (by decide)
    cases hw : fs (cwd ++ "/.github/workflows/gcloud-deploy.yml") with
    | some w =>
      simp [runInit, writeFileIfNotExists, hw, hpd]
    | none =>
      have h1 : fsWrite fs (cwd ++ "/.github/workflows/gcloud-deploy.yml") wf
          (cwd ++ "/.env.gcloud") = fs (cwd ++ "/.env.gcloud") := by
        simp [fsWrite, Ne.symm hwe]
      cases he : fs (cwd ++ "/.env.gcloud") with
      | some w2 =>
        rcases hpor with rfl | rfl
        · rw [hpd] at hw; cases hw
        · have hr : (runInit fs cwd wf envT).2 =
              fsWrite fs (cwd ++ "/.github/workflows/gcloud-deploy.yml") wf := by
            simp [runInit, writeFileIfNotExists, hw, h1, he]
          rw [hr]
          simp [fsWrite, Ne.symm hwe, hpd]
      | none =>
        rcases hpor with rfl | rfl
        · rw [hpd] at hw; cases hw
        · rw [hpd] at he; cases he

/-- Witness for C8: a pre-existing `.env.gcloud` survives `runInit`. -/
theorem writeFileIfNotExists_no_overwrite_witness :
    fs0 ("/w" ++ "/.env.gcloud") = some "X".data ∧
    (runInit fs0 "/w" "WF".data "ENV".data).2 ("/w" ++ "/.env.gcloud") = some "X".data :=
  ⟨by decide,
   (writeFileIfNotExists_no_overwrite fs0 "" []).2.2.2 "/w" "WF".data "ENV".data
     ("/w" ++ "/.env.gcloud") "X".data (by decide) (Or.inr rfl)⟩

/-! ## C7: the prompt functions -/

/-- Claim C7: with `--yes` both prompt functions return the default value
independently of the input; interactively they return the default exactly
when the input line is all whitespace, and the trimmed input otherwise. -/
theorem prompt_functions_correct (label d input : String) :
    promptLB true label d input = d ∧
    promptProject true label d input = d ∧
    (input.data.all isSpaceChar = true →
      promptLB false label d input = d ∧ promptProject false label d input = d) ∧
    (input.data.all isSpaceChar = false →
      promptLB false label d input = trimSpace input ∧
      promptProject false label d input = trimSpace input ∧
      trimSpace input ≠ "") := by
  refine ⟨rfl, rfl, ?_, ?_⟩
  · intro hall
    have ht : trimSpace input = "" := (trimSpace_eq_empty_iff input).mpr hall
    exact ⟨by simp [promptLB, ht], by simp [promptProject, ht]⟩
  · intro hall
    have ht : trimSpace input ≠ "" := by
      intro hc
      rw [(trimSpace_eq_empty_iff input).eq] at hc
      rw [hc] at hall
      cases hall
    exact ⟨by simp [promptLB, ht], by simp [promptProject, ht], ht⟩

/-- Witness for C7 at a concrete input line. -/
theorem prompt_functions_correct_witness :
    (" my-input \n".data.all isSpaceChar = false) ∧
    promptLB false "Network" "default" " my-input \n" = trimSpace " my-input \n" :=
  ⟨by decide,
   ((prompt_functions_correct "Network" "default" " my-input \n").2.2.2 (by decide)).1⟩

/-! ## Helper lemmas on the effect combinators -/

/-- Unfolding `bindM` at an environment. -/
theorem bindM_eq_match {α β : Type} (m : M α) (f : α → M β) (env : Env) :
    bindM m f env =
      match m env with
      | (.ok a, t) => ((f a env).1, t ++ (f a env).2)
      | (.error e, t) => (.error e, t) := by
  unfold bindM
  cases hm : m env with
  | mk r t => cases r <;> rfl

/-- A `bindM` of unit computations succeeds iff both parts do. -/
theorem bindM_fst_ok_iff {β : Type} (m : M Unit) (f : Unit → M β) (env : Env) :
    (∃ b, (bindM m f env).1 = .ok b) ↔
      ((m env).1 = .ok () ∧ ∃ b, (f () env).1 = .ok b) := by
  rw [bindM_eq_match]
  cases hm : m env with
  | mk r t =>
    cases r with
    | ok a => cases a; simp
    | error e => simp

/-- Events of a unit `bindM` come from one of its two parts. -/
theorem mem_bindM_trace {β : Type} {m : M Unit} {f : Unit → M β} {env : Env}
    {e : Event} (h : e ∈ (bindM m f env).2) :
    e ∈ (m env).2 ∨ e ∈ (f () env).2 := by
  rw [bindM_eq_match] at h
  cases hm : m env with
  | mk r t =>
    rw [hm] at h
    cases r with
    | ok a =>
      cases a
      rcases List.mem_append.mp h with h1 | h2
      · exact Or.inl h1
      · exact Or.inr h2
    | error e' => exact Or.inl h

/-- A `forList` loop succeeds iff its body succeeds on every element (the
environment is read-only, so later iterations are unaffected by earlier
ones). -/
theorem forList_fst_ok_iff {α : Type} (l : List α) (f : α → M Unit) (env : Env) :
    (forList l f env).1 = .ok () ↔ ∀ x ∈ l, (f x env).1 = .ok () := by
  induction l with
  | nil => simp [forList, pureM]
  | cons x xs ih =>
    simp only [forList, bindM_eq_match]
    cases hx : f x env with
    | mk r t =>
      cases r with
      | ok a =>
        cases a
        simp only [List.mem_cons]
        constructor
        · intro h
          intro y hy
          rcases hy with rfl | hy
          · rw [hx]
          · exact (ih.mp h) y hy
        · intro h
          exact ih.mpr fun y hy => h y (Or.inr hy)
      | error e =>
        simp only [List.mem_cons]
        constructor
        · intro h; cases h
        · intro h
          have := h x (Or.inl rfl)
          rw [hx] at this
          cases this

/-- Events of a `forList` loop come from body runs on list elements. -/
theorem forList_trace_mem {α : Type} {l : List α} {f : α → M Unit} {env : Env}
    {e : Event} (h : e ∈ (forList l f env).2) :
    ∃ x ∈ l, e ∈ (f x env).2 := by
  induction l with
  | nil => simp [forList, pureM] at h
  | cons x xs ih =>
    simp only [forList, bindM_eq_match] at h
    cases hx : f x env with
    | mk r t =>
      rw [hx] at h
      cases r with
      | ok a =>
        rcases List.mem_append.mp h with h1 | h2
        · exact ⟨x, List.mem_cons_self x xs, by rw [hx]; exact h1⟩
        · obtain ⟨y, hy, hm⟩ := ih h2
          exact ⟨y, List.mem_cons_of_mem x hy, hm⟩
      | error e' =>
        exact ⟨x, List.mem_cons_self x xs, by rw [hx]; exact h⟩

/-- When every body run succeeds with a known trace, the loop succeeds and
its trace is the concatenation of the bodies' traces. -/
theorem forList_all_ok {α : Type} (l : List α) (f : α → M Unit) (env : Env)
    (g : α → List Event) (h : ∀ x ∈ l, f x env = (.ok (), g x)) :
    forList l f env = (.ok (), (l.map g).flatten) := by
  induction l with
  | nil => simp [forList, pureM]
  | cons x xs ih =>
    have hx := h x (List.mem_cons_self x xs)
    have ihx := ih fun y hy => h y (List.mem_cons_of_mem x hy)
    simp [forList, bindM_eq_match, hx, ihx]

/-- `tryIgnore` always succeeds. -/
theorem tryIgnore_fst (m : M Unit) (note : String) (env : Env) :
    (tryIgnore m note env).1 = .ok () := by
  unfold tryIgnore
  cases hm : m env with
  | mk r t => cases r <;> rfl

/-- Trace of `tryIgnore` when the inner computation succeeds. -/
theorem tryIgnore_trace_ok {m : M Unit} {note : String} {env : Env}
    (h : (m env).1 = .ok ()) : (tryIgnore m note env).2 = (m env).2 := by
  unfold tryIgnore
  cases hm : m env with
  | mk r t =>
    rw [hm] at h
    cases r with
    | ok a => simp
    | error e => cases h

/-- Trace of `tryIgnore` when the inner computation fails: the note is
printed after the inner trace. -/
theorem tryIgnore_trace_err {m : M Unit} {note : String} {env : Env} {e : String}
    (h : (m env).1 = .error e) :
    (tryIgnore m note env).2 = (m env).2 ++ [.printEv note] := by
  unfold tryIgnore
  cases hm : m env with
  | mk r t =>
    rw [hm] at h
    cases r with
    | ok a => cases h
    | error e' => simp

/-- `runCommandSilent` succeeds iff in dry-run mode or the command does. -/
theorem runCommandSilent_fst_ok_iff (c : Cmd) (env : Env) :
    (runCommandSilent c env).1 = .ok () ↔
      (env.dryRun = true ∨ env.oracle c = true) := by
  unfold runCommandSilent execC
  cases hd : env.dryRun <;> cases ho : env.oracle c <;> simp [hd, ho]

/-- Outside dry-run, `runCommandSilent` spawns exactly its command. -/
theorem runCommandSilent_trace_nodry (c : Cmd) (env : Env)
    (h : env.dryRun = false) : (runCommandSilent c env).2 = [.execEv c] := by
  unfold runCommandSilent execC
  cases ho : env.oracle c <;> simp [h, ho]

/-- A step that fails aborts the loop at once with the wrapped error and
contributes only its own events. -/
theorem runStepsFrom_cons_err {γ : Type} {total i : Nat} {n : String}
    {f : γ → M Unit} {rest : List (String × (γ → M Unit))} {cfg : γ} {env : Env}
    {e : String} {t : List Event} (h : f cfg env = (.error e, t)) :
    runStepsFrom total i ((n, f) :: rest) cfg env =
      (.error (n ++ " failed: " ++ e), stepHeader i total n ++ t) := by
  simp [runStepsFrom, h]

/-- Unfolding the steps loop at a successful head step. -/
theorem runStepsFrom_cons_ok {γ : Type} {total i : Nat} {n : String}
    {f : γ → M Unit} {rest : List (String × (γ → M Unit))} {cfg : γ} {env : Env}
    {t : List Event} (h : f cfg env = (.ok (), t)) :
    runStepsFrom total i ((n, f) :: rest) cfg env =
      ((runStepsFrom total (i + 1) rest cfg env).1,
        stepHeader i total n ++ t ++ [.printEv ""] ++
          (runStepsFrom total (i + 1) rest cfg env).2) := by
  simp [runStepsFrom, h]

/-- `runStepsFrom` splits at any decomposition of its step list: the tail
runs only if the front succeeded. -/
theorem runStepsFrom_append {γ : Type} (total i : Nat)
    (pre rest : List (String × (γ → M Unit))) (cfg : γ) (env : Env) :
    runStepsFrom total i (pre ++ rest) cfg env =
      match runStepsFrom total i pre cfg env with
      | (.ok _, t) =>
          ((runStepsFrom total (i + pre.length) rest cfg env).1,
            t ++ (runStepsFrom total (i + pre.length) rest cfg env).2)
      | (.error e, t) => (.error e, t) := by
  induction pre generalizing i with
  | nil => simp [runStepsFrom, pureM]
  | cons s pre' ih =>
    obtain ⟨n, f⟩ := s
    cases hf : f cfg env with
    | mk r t =>
      cases r with
      | ok a =>
        cases a
        rw [List.cons_append, runStepsFrom_cons_ok hf, runStepsFrom_cons_ok hf,
          ih (i + 1)]
        cases hp : runStepsFrom total (i + 1) pre' cfg env with
        | mk rp tp =>
          cases rp with
          | ok b =>
            simp only [List.length_cons]
            have hlen : i + 1 + pre'.length = i + (pre'.length + 1) := by omega
            rw [hlen]
            simp [List.append_assoc]
          | error e => simp
      | error e =>
        rw [List.cons_append, runStepsFrom_cons_err hf, runStepsFrom_cons_err hf]

/-- When every step succeeds, the loop succeeds. -/
theorem runStepsFrom_ok_all {γ : Type} (total i : Nat)
    (l : List (String × (γ → M Unit))) (cfg : γ) (env : Env)
    (h : ∀ s ∈ l, ((s.2) cfg env).1 = .ok ()) :
    (runStepsFrom total i l cfg env).1 = .ok () := by
  induction l generalizing i with
  | nil => simp [runStepsFrom, pureM]
  | cons s rest ih =>
    obtain ⟨n, f⟩ := s
    simp only [runStepsFrom]
    cases hf : f cfg env with
    | mk r t =>
      cases r with
      | ok a => simp [ih (i + 1) fun x hx => h x (List.mem_cons_of_mem _ hx)]
      | error e =>
        have := h (n, f) (List.mem_cons_self _ _)
        simp [hf] at this

/-- Splitting the loop at the first failing step: everything before
succeeded, the failing step's error is wrapped with its name, and no event
of any later step is emitted. -/
theorem runStepsFrom_split_err {γ : Type} (total i : Nat)
    {pre post : List (String × (γ → M Unit))} {n : String} {f : γ → M Unit}
    {cfg : γ} {env : Env} {e : String} {t₀ t₁ : List Event}
    (hpre : runStepsFrom total i pre cfg env = (.ok (), t₀))
    (hf : f cfg env = (.error e, t₁)) :
    runStepsFrom total i (pre ++ (n, f) :: post) cfg env =
      (.error (n ++ " failed: " ++ e),
        t₀ ++ stepHeader (i + pre.length) total n ++ t₁) := by
  rw [runStepsFrom_append, hpre, runStepsFrom_cons_err hf]
  simp [List.append_assoc]

/-- Under passing preflight checks, `runSetup`'s result is that of the
five-step loop. -/
theorem runSetup_fst_eq (rc : RawConfig) (env : Env)
    (hv : ValidateConfig rc = .ok ()) (hg : env.gcloudFound = true)
    (hgh : env.ghFound = true) (hauth : env.oracle ghAuthCmd = true) :
    (runSetup rc env).1 = (runStepsFrom 5 1 setupSteps (loadConfig rc) env).1 := by
  cases hs : runStepsFrom 5 1 setupSteps (loadConfig rc) env with
  | mk r t =>
    cases r <;>
      simp [runSetup, bindM, checkGcloud, checkGH, execC, hv, hg, hgh, hauth, hs]

/-! ## C1: the five-step sequencer -/

/-- Claim C1: the setup steps are the fixed five-element list in the fixed
order; under passing preflight checks `runSetup`'s outcome is the loop's;
if the steps before a given one succeeded and that step fails, the whole
run returns the step's error wrapped with its name and no later step
contributes any event; and when every step succeeds the loop succeeds. -/
theorem runSetup_sequencing :
    (setupSteps =
      [("Enabling APIs", enableAPIs),
       ("Creating Service Account", createServiceAccount),
       ("Setting up Workload Identity Federation", setupWorkloadIdentity),
       ("Creating Artifact Registry", createArtifactRegistry),
       ("Configuring GitHub Repository", configureGitHub)]) ∧
    (∀ rc env, ValidateConfig rc = .ok () → env.gcloudFound = true →
      env.ghFound = true → env.oracle ghAuthCmd = true →
      (runSetup rc env).1 = (runStepsFrom 5 1 setupSteps (loadConfig rc) env).1) ∧
    (∀ (cfg : Config) (env : Env) pre n f post e t₀ t₁,
      setupSteps = pre ++ (n, f) :: post →
      runStepsFrom 5 1 pre cfg env = (.ok (), t₀) →
      f cfg env = (.error e, t₁) →
      runStepsFrom 5 1 setupSteps cfg env =
        (.error (n ++ " failed: " ++ e),
          t₀ ++ stepHeader (1 + pre.length) 5 n ++ t₁)) ∧
    (∀ (cfg : Config) (env : Env),
      (∀ s ∈ setupSteps, ((s.2) cfg env).1 = .ok ()) →
      (runStepsFrom 5 1 setupSteps cfg env).1 = .ok ()) := by
  refine ⟨rfl, runSetup_fst_eq, ?_, ?_⟩
  · intro cfg env pre n f post e t₀ t₁ hsplit hpre hf
    rw [hsplit]
    exact runStepsFrom_split_err 5 1 hpre hf
  · intro cfg env h
    exact runStepsFrom_ok_all 5 1 setupSteps cfg env h

/-- Witness for C1: with every command failing, step 1 (`enableAPIs`)
fails and the whole loop stops there with the wrapped error. -/
theorem runSetup_sequencing_witness :
    enableAPIs cfg0 envFail = (.error cmdErr, (enableAPIs cfg0 envFail).2) ∧
    runStepsFrom 5 1 setupSteps cfg0 envFail =
      (.error ("Enabling APIs failed: " ++ cmdErr),
        [] ++ stepHeader 1 5 "Enabling APIs" ++ (enableAPIs cfg0 envFail).2) := by
  have hf : enableAPIs cfg0 envFail = (.error cmdErr, (enableAPIs cfg0 envFail).2) := by
    have h1 : (enableAPIs cfg0 envFail).1 = .error cmdErr := by rfl
    cases he : enableAPIs cfg0 envFail with
    | mk r t =>
      rw [he] at h1
      simp only at h1
      rw [h1]
  refine ⟨hf, ?_⟩
  exact runSetup_sequencing.2.2.1 cfg0 envFail []
    "Enabling APIs" enableAPIs
    [("Creating Service Account", createServiceAccount),
     ("Setting up Workload Identity Federation", setupWorkloadIdentity),
     ("Creating Artifact Registry", createArtifactRegistry),
     ("Configuring GitHub Repository", configureGitHub)]
    cmdErr [] ((enableAPIs cfg0 envFail).2) rfl rfl hf

/-! ## C4: top-level error handling -/

/-- Claim C4: `Execute` prints a returned error to stderr and exits with
status 1 (and only an error makes it exit nonzero), and a failing step's
error reaches `Execute` wrapped with the step name. -/
theorem execute_error_handling :
    (∀ e, Execute (.error e) = (1, [e])) ∧
    Execute (.ok ()) = (0, []) ∧
    (∀ rc env pre n f post e t₀ t₁,
      ValidateConfig rc = .ok () → env.gcloudFound = true →
      env.ghFound = true → env.oracle ghAuthCmd = true →
      setupSteps = pre ++ (n, f) :: post →
      runStepsFrom 5 1 pre (loadConfig rc) env = (.ok (), t₀) →
      f (loadConfig rc) env = (.error e, t₁) →
      Execute (runSetup rc env).1 = (1, [n ++ " failed: " ++ e])) := by
  refine ⟨fun e => rfl, rfl, ?_⟩
  intro rc env pre n f post e t₀ t₁ hv hg hgh hauth hsplit hpre hf
  have h1 : (runSetup rc env).1 = .error (n ++ " failed: " ++ e) := by
    rw [runSetup_fst_eq rc env hv hg hgh hauth, hsplit,
      runStepsFrom_split_err 5 1 hpre hf]
  rw [h1]
  rfl

/-- Witness for C4: with only `gh auth status` succeeding, the first step
fails and the process exits 1 with the wrapped error on stderr. -/
theorem execute_error_handling_witness :
    Execute (runSetup rc0 envAuthOnly).1 =
      (1, ["Enabling APIs failed: " ++ cmdErr]) := by
  have hf : enableAPIs (loadConfig rc0) envAuthOnly =
      (.error cmdErr, (enableAPIs (loadConfig rc0) envAuthOnly).2) := by
    have h1 : (enableAPIs (loadConfig rc0) envAuthOnly).1 = .error cmdErr := by rfl
    cases he : enableAPIs (loadConfig rc0) envAuthOnly with
    | mk r t =>
      rw [he] at h1
      simp only at h1
      rw [h1]
  exact execute_error_handling.2.2 rc0 envAuthOnly []
    "Enabling APIs" enableAPIs
    [("Creating Service Account", createServiceAccount),
     ("Setting up Workload Identity Federation", setupWorkloadIdentity),
     ("Creating Artifact Registry", createArtifactRegistry),
     ("Configuring GitHub Repository", configureGitHub)]
    cmdErr [] ((enableAPIs (loadConfig rc0) envAuthOnly).2)
    rfl rfl rfl (by decide) rfl rfl hf

/-! ## Dry-run traces of the five steps -/

/-- The step header is its lines, printed. -/
theorem stepHeader_eq_lines (i total : Nat) (n : String) :
    stepHeader i total n = (stepHeaderLines i total n).map Event.printEv := rfl

/-- `enableAPIs` under `--dry-run`. -/
theorem enableAPIs_dry (cfg : Config) (env : Env) (hd : env.dryRun = true) :
    enableAPIs cfg env = (.ok (), (setupAPIs.map fun api =>
      [Event.printEv ("  Enabling " ++ api),
       Event.printEv (dryCmdLine (enableCmd cfg api))]).flatten) := by
  apply forList_all_ok
  intro api _
  simp [bindM_eq_match, printE, runCommandSilent, hd, dryCmdLine]

/-- `createServiceAccount` under `--dry-run`. -/
theorem createServiceAccount_dry (cfg : Config) (env : Env) (hd : env.dryRun = true) :
    createServiceAccount cfg env =
      (.ok (), .printEv ("  Creating service account: " ++ cfg.serviceAccountName) ::
        .printEv (dryCmdLine (saCreateCmd cfg)) ::
        (saRoles.map fun role =>
          [Event.printEv ("  Granting " ++ role),
           Event.printEv (dryCmdLine (grantCmd cfg role))]).flatten) := by
  have hroles := forList_all_ok saRoles
    (fun role => bindM (printE ("  Granting " ++ role)) fun _ =>
      runCommandSilent (grantCmd cfg role)) env
    (fun role => [.printEv ("  Granting " ++ role),
      .printEv (dryCmdLine (grantCmd cfg role))])
    (fun role _ => by simp [bindM_eq_match, printE, runCommandSilent, hd, dryCmdLine])
  simp [createServiceAccount, bindM_eq_match, printE, tryIgnore,
    runCommandSilent, hd, hroles, dryCmdLine]

/-- `setupWorkloadIdentity` under `--dry-run`. -/
theorem setupWorkloadIdentity_dry (cfg : Config) (env : Env) (hd : env.dryRun = true) :
    setupWorkloadIdentity cfg env =
      (.ok (), [.printEv "  Creating Workload Identity Pool...",
        .printEv (dryCmdLine (poolCreateCmd cfg)),
        .printEv "  Creating OIDC Provider...",
        .printEv (dryCmdLine (providerCreateCmd cfg)),
        .printEv "  Configuring repository access...",
        .printEv (dryCmdLine (bindingCmd cfg))]) := by
  simp [setupWorkloadIdentity, bindM_eq_match, printE, tryIgnore,
    runCommandSilent, hd, dryCmdLine]

/-- `createArtifactRegistry` under `--dry-run`. -/
theorem createArtifactRegistry_dry (cfg : Config) (env : Env) (hd : env.dryRun = true) :
    createArtifactRegistry cfg env =
      (.ok (), [.printEv ("  Creating repository: " ++ cfg.artifactRegistryName),
        .printEv (dryCmdLine (arCreateCmd cfg))]) := by
  simp [createArtifactRegistry, bindM_eq_match, printE, tryIgnore,
    runCommandSilent, hd, dryCmdLine]

/-- `configureGitHub` under `--dry-run`: the printed lines follow the map
iteration orders, and no process is spawned. -/
theorem configureGitHub_dry (cfg : Config) (env : Env) (hd : env.dryRun = true) :
    configureGitHub cfg env =
      (.ok (), .printEv "  Setting secrets..." ::
        ((env.secretOrder.map fun n =>
            [Event.printEv ("    " ++ n),
             Event.printEv ("    [dry-run] gh secret set " ++ n ++ " --repo " ++ repoSlug cfg)]).flatten ++
          .printEv "  Setting variables..." ::
            (env.varOrder.map fun n =>
              [Event.printEv ("    " ++ n),
               Event.printEv ("    [dry-run] gh variable set " ++ n ++ " --repo " ++ repoSlug cfg)]).flatten)) := by
  have hsec := forList_all_ok env.secretOrder (setSecret cfg) env
    (fun n => [.printEv ("    " ++ n),
      .printEv ("    [dry-run] gh secret set " ++ n ++ " --repo " ++ repoSlug cfg)])
    (fun n _ => by simp [setSecret, bindM_eq_match, printE, hd])
  have hvar := forList_all_ok env.varOrder (setVariable cfg) env
    (fun n => [.printEv ("    " ++ n),
      .printEv ("    [dry-run] gh variable set " ++ n ++ " --repo " ++ repoSlug cfg)])
    (fun n _ => by simp [setVariable, bindM_eq_match, printE, hd])
  simp [configureGitHub, bindM_eq_match, printE, withEnv, hsec, hvar]

/-- Under `--dry-run` the five-step loop succeeds and its events are
exactly the dry-run lines, printed. -/
theorem dry_steps_eq (cfg : Config) (env : Env) (hd : env.dryRun = true) :
    runStepsFrom 5 1 setupSteps cfg env =
      (.ok (), dryRunStepsTrace cfg env.secretOrder env.varOrder) := by
  show runStepsFrom 5 1
    [("Enabling APIs", enableAPIs),
     ("Creating Service Account", createServiceAccount),
     ("Setting up Workload Identity Federation", setupWorkloadIdentity),
     ("Creating Artifact Registry", createArtifactRegistry),
     ("Configuring GitHub Repository", configureGitHub)] cfg env = _
  rw [runStepsFrom_cons_ok (enableAPIs_dry cfg env hd),
    runStepsFrom_cons_ok (createServiceAccount_dry cfg env hd),
    runStepsFrom_cons_ok (setupWorkloadIdentity_dry cfg env hd),
    runStepsFrom_cons_ok (createArtifactRegistry_dry cfg env hd),
    runStepsFrom_cons_ok (configureGitHub_dry cfg env hd)]
  simp [runStepsFrom, pureM, dryRunStepsTrace, dryRunStepsLines,
    stepHeader_eq_lines, stepHeaderLines, List.map_append, List.map_flatten,
    List.map_map, Function.comp_def, List.append_assoc]

/-- No process-spawn event appears among printed lines. -/
theorem not_exec_mem_map_print (l : List String) (c : Cmd) :
    Event.execEv c ∉ l.map Event.printEv := by
  simp [List.mem_map]

/-- Filtering printed lines for spawn events yields nothing. -/
theorem filter_isExecB_map_print (l : List String) :
    (l.map Event.printEv).filter isExecB = [] := by
  induction l with
  | nil => rfl
  | cons s l ih => simp [isExecB, ih]

/-! ## C2: dry-run behaviour -/

/-- Counterexample to C2 as stated: in a `--dry-run` run of the setup
command (all preflight checks passing), the external binary `gh` is still
executed — `checkGH` spawns `gh auth status` unconditionally. -/
theorem dry_run_executes_gh_counterexample :
    envDryA.dryRun = true ∧
    Event.execEv ghAuthCmd ∈ (runSetup rc0 envDryA).2 := by
  constructor
  · rfl
  · have hsteps := dry_steps_eq (loadConfig rc0) envDryA rfl
    simp [runSetup, bindM_eq_match, checkGcloud, checkGH, execC, hsteps,
      ValidateConfig, envDryA, getString, RequiredVars, rc0]

set_option maxHeartbeats 1000000 in
/-- Claim C2 (amended): under `--dry-run` the five setup steps print
exactly the dry-run lines — each operation's command line prefixed with
`[dry-run]` — return no error, and spawn no process; over the whole run
the only spawned process is the preflight `gh auth status` check. -/
theorem dry_run_prints_not_executes (cfg : Config) (rc : RawConfig) (env : Env)
    (hd : env.dryRun = true) :
    runStepsFrom 5 1 setupSteps cfg env =
      (.ok (), dryRunStepsTrace cfg env.secretOrder env.varOrder) ∧
    (∀ c : Cmd, Event.execEv c ∉ (runStepsFrom 5 1 setupSteps cfg env).2) ∧
    (ValidateConfig rc = .ok () → env.gcloudFound = true → env.ghFound = true →
      (runSetup rc env).2.filter isExecB = [.execEv ghAuthCmd]) := by
  have hsteps := dry_steps_eq cfg env hd
  refine ⟨hsteps, ?_, ?_⟩
  · intro c
    rw [hsteps]
    exact not_exec_mem_map_print _ c
  · intro hv hg hgh
    have hsteps' := dry_steps_eq (loadConfig rc) env hd
    cases hauth : env.oracle ghAuthCmd
    · simp [runSetup, bindM_eq_match, checkGcloud, checkGH, execC, hv, hg, hgh,
        hauth, isExecB]
    · simp [runSetup, bindM_eq_match, checkGcloud, checkGH, execC, hv, hg, hgh,
        hauth, hsteps', List.filter_append, filter_isExecB_map_print, isExecB,
        setupBanner, setupSuccessTrailer, dryRunStepsTrace]

/-- Witness for the amended C2 at a concrete dry-run environment. -/
theorem dry_run_prints_not_executes_witness :
    envDryA.dryRun = true ∧
    (runSetup rc0 envDryA).2.filter isExecB = [.execEv ghAuthCmd] :=
  ⟨rfl, (dry_run_prints_not_executes cfg0 rc0 envDryA rfl).2.2 rfl rfl rfl⟩

/-! ## Result and trace characterizations outside dry-run -/

/-- A unit `bindM` succeeds iff both parts do. -/
theorem bindM_unit_ok_iff (m : M Unit) (f : Unit → M Unit) (env : Env) :
    (bindM m f env).1 = .ok () ↔
      ((m env).1 = .ok () ∧ (f () env).1 = .ok ()) := by
  rw [bindM_eq_match]
  cases hm : m env with
  | mk r t =>
    cases r with
    | ok a => cases a; simp
    | error e => simp

/-- Trace of a `bindM` whose first part succeeds. -/
theorem bindM_trace_ok {β : Type} (m : M Unit) (f : Unit → M β) (env : Env)
    (h : (m env).1 = .ok ()) :
    (bindM m f env).2 = (m env).2 ++ (f () env).2 := by
  rw [bindM_eq_match]
  cases hm : m env with
  | mk r t =>
    rw [hm] at h
    cases r with
    | ok a => cases a; simp
    | error e => cases h

/-- A print followed by a command succeeds iff dry-run or the command does. -/
theorem print_then_cmd_ok_iff (s : String) (c : Cmd) (env : Env) :
    ((bindM (printE s) fun _ => runCommandSilent c) env).1 = .ok () ↔
      (env.dryRun = true ∨ env.oracle c = true) := by
  rw [bindM_unit_ok_iff]
  simp [printE, runCommandSilent_fst_ok_iff]

/-- Outside dry-run, an ignored create spawns its command and prints the
note exactly when the command failed. -/
theorem tryIgnore_cmd_eq (c : Cmd) (note : String) (env : Env)
    (hd : env.dryRun = false) :
    tryIgnore (runCommandSilent c) note env =
      (.ok (), .execEv c ::
        (if env.oracle c = true then [] else [.printEv note])) := by
  unfold tryIgnore runCommandSilent execC
  cases ho : env.oracle c <;> simp [hd, ho]

/-- A string with a fixed prefix differs from any string whose first `k`
characters differ from that prefix's. -/
theorem prefix_append_ne (p x q : String) (k : Nat)
    (hk : k ≤ p.data.length) (hne : p.data.take k ≠ q.data.take k) :
    p ++ x ≠ q := by
  intro he
  apply hne
  have hd := congrArg String.data he
  rw [String.data_append] at hd
  calc p.data.take k
      = (p.data ++ x.data).take k := (List.take_append_of_le_length hk).symm
    _ = q.data.take k := by rw [hd]

/-- `setSecret` succeeds iff dry-run or `gh secret set` does. -/
theorem setSecret_fst_ok_iff (cfg : Config) (n : String) (env : Env)
    (hd : env.dryRun = false) :
    (setSecret cfg n env).1 = .ok () ↔
      env.oracle (secretSetCmd cfg n) = true := by
  simp only [setSecret, bindM_unit_ok_iff, printE]
  cases ho : env.oracle (secretSetCmd cfg n) <;>
    simp [hd, ho, execC, execOrFail]

/-- `setVariable` succeeds iff dry-run or `gh variable set` does. -/
theorem setVariable_fst_ok_iff (cfg : Config) (n : String) (env : Env)
    (hd : env.dryRun = false) :
    (setVariable cfg n env).1 = .ok () ↔
      env.oracle (varSetCmd cfg n) = true := by
  simp only [setVariable, bindM_unit_ok_iff, printE]
  cases ho : env.oracle (varSetCmd cfg n) <;>
    simp [hd, ho, execC, execOrFail]

/-- `enableAPIs` succeeds iff all seven `services enable` commands do. -/
theorem enableAPIs_fst_ok_iff (cfg : Config) (env : Env)
    (hd : env.dryRun = false) :
    (enableAPIs cfg env).1 = .ok () ↔
      ∀ api ∈ setupAPIs, env.oracle (enableCmd cfg api) = true := by
  simp only [enableAPIs, forList_fst_ok_iff, print_then_cmd_ok_iff, hd]
  simp

/-- `createServiceAccount` succeeds iff all six role grants do — the
service-account create's own failure never fails the step. -/
theorem createServiceAccount_fst_ok_iff (cfg : Config) (env : Env)
    (hd : env.dryRun = false) :
    (createServiceAccount cfg env).1 = .ok () ↔
      ∀ role ∈ saRoles, env.oracle (grantCmd cfg role) = true := by
  simp only [createServiceAccount, bindM_unit_ok_iff, printE, tryIgnore_fst,
    forList_fst_ok_iff, print_then_cmd_ok_iff, hd]
  simp [runCommandSilent_fst_ok_iff, hd]

/-- `setupWorkloadIdentity` succeeds iff the final policy binding does —
pool and provider creation failures never fail the step. -/
theorem setupWorkloadIdentity_fst_ok_iff (cfg : Config) (env : Env)
    (hd : env.dryRun = false) :
    (setupWorkloadIdentity cfg env).1 = .ok () ↔
      env.oracle (bindingCmd cfg) = true := by
  simp only [setupWorkloadIdentity, bindM_unit_ok_iff, printE, tryIgnore_fst,
    runCommandSilent_fst_ok_iff, hd]
  simp

/-- `createArtifactRegistry` always succeeds. -/
theorem createArtifactRegistry_fst_ok (cfg : Config) (env : Env) :
    (createArtifactRegistry cfg env).1 = .ok () := by
  have h := bindM_unit_ok_iff
    (printE ("  Creating repository: " ++ cfg.artifactRegistryName))
    (fun _ => tryIgnore (runCommandSilent (arCreateCmd cfg))
      "  (repository may already exist, continuing...)") env
  simp only [createArtifactRegistry]
  rw [h]
  exact ⟨rfl, tryIgnore_fst _ _ env⟩

/-- `configureGitHub` succeeds iff every secret and variable set does. -/
theorem configureGitHub_fst_ok_iff (cfg : Config) (env : Env)
    (hd : env.dryRun = false) :
    (configureGitHub cfg env).1 = .ok () ↔
      ((∀ n ∈ env.secretOrder, env.oracle (secretSetCmd cfg n) = true) ∧
       (∀ n ∈ env.varOrder, env.oracle (varSetCmd cfg n) = true)) := by
  simp only [configureGitHub, bindM_unit_ok_iff, printE, withEnv,
    forList_fst_ok_iff, setSecret_fst_ok_iff cfg _ env hd,
    setVariable_fst_ok_iff cfg _ env hd]
  simp [and_assoc]

/-- Full trace of `createServiceAccount` outside dry-run. -/
theorem createServiceAccount_trace (cfg : Config) (env : Env)
    (hd : env.dryRun = false) :
    (createServiceAccount cfg env).2 =
      .printEv ("  Creating service account: " ++ cfg.serviceAccountName) ::
      .execEv (saCreateCmd cfg) ::
      ((if env.oracle (saCreateCmd cfg) = true then [] else
          [.printEv "  (service account may already exist, continuing...)"]) ++
        (forList saRoles (fun role =>
          bindM (printE ("  Granting " ++ role)) fun _ =>
            runCommandSilent (grantCmd cfg role)) env).2) := by
  simp only [createServiceAccount]
  rw [bindM_trace_ok _ _ _ rfl, bindM_trace_ok _ _ _ (tryIgnore_fst _ _ env),
    tryIgnore_cmd_eq _ _ _ hd]
  simp [printE]

/-- Full trace of `setupWorkloadIdentity` outside dry-run. -/
theorem setupWorkloadIdentity_trace (cfg : Config) (env : Env)
    (hd : env.dryRun = false) :
    (setupWorkloadIdentity cfg env).2 =
      .printEv "  Creating Workload Identity Pool..." ::
      .execEv (poolCreateCmd cfg) ::
      ((if env.oracle (poolCreateCmd cfg) = true then [] else
          [.printEv "  (pool may already exist, continuing...)"]) ++
        (.printEv "  Creating OIDC Provider..." ::
         .execEv (providerCreateCmd cfg) ::
         ((if env.oracle (providerCreateCmd cfg) = true then [] else
             [.printEv "  (provider may already exist, continuing...)"]) ++
           (.printEv "  Configuring repository access..." ::
            [.execEv (bindingCmd cfg)])))) := by
  simp only [setupWorkloadIdentity]
  rw [bindM_trace_ok _ _ _ rfl, bindM_trace_ok _ _ _ (tryIgnore_fst _ _ env),
    bindM_trace_ok _ _ _ rfl, bindM_trace_ok _ _ _ (tryIgnore_fst _ _ env),
    bindM_trace_ok _ _ _ rfl, tryIgnore_cmd_eq _ _ _ hd,
    tryIgnore_cmd_eq _ _ _ hd, runCommandSilent_trace_nodry _ _ hd]
  simp [printE]

/-- Full trace of `createArtifactRegistry` outside dry-run. -/
theorem createArtifactRegistry_trace (cfg : Config) (env : Env)
    (hd : env.dryRun = false) :
    (createArtifactRegistry cfg env).2 =
      .printEv ("  Creating repository: " ++ cfg.artifactRegistryName) ::
      .execEv (arCreateCmd cfg) ::
      (if env.oracle (arCreateCmd cfg) = true then [] else
        [.printEv "  (repository may already exist, continuing...)"]) := by
  simp only [createArtifactRegistry]
  rw [bindM_trace_ok _ _ _ rfl, tryIgnore_cmd_eq _ _ _ hd]
  simp [printE]

/-- The service-account note is printed exactly when the create failed. -/
theorem createServiceAccount_note_iff (cfg : Config) (env : Env)
    (hd : env.dryRun = false) :
    (Event.printEv "  (service account may already exist, continuing...)" ∈
      (createServiceAccount cfg env).2) ↔
      env.oracle (saCreateCmd cfg) = false := by
  rw [createServiceAccount_trace cfg env hd]
  constructor
  · intro hm
    cases ho : env.oracle (saCreateCmd cfg) with
    | false => rfl
    | true =>
      exfalso
      rw [ho] at hm
      simp only [if_pos, List.nil_append, List.mem_cons] at hm
      rcases hm with h1 | h2 | h3
      · exact prefix_append_ne "  Creating service account: "
          cfg.serviceAccountName
          "  (service account may already exist, continuing...)" 4
          (by decide) (by decide) (by injection h1 with h; exact h.symm)
      · exact Event.noConfusion h2
      · obtain ⟨r, hr, hmem⟩ := forList_trace_mem h3
        rw [bindM_trace_ok _ _ _ rfl, runCommandSilent_trace_nodry _ _ hd] at hmem
        simp only [printE, List.cons_append, List.nil_append, List.mem_cons,
          List.not_mem_nil, or_false] at hmem
        rcases hmem with h4 | h4
        · exact prefix_append_ne "  Granting " r
            "  (service account may already exist, continuing...)" 4
            (by decide) (by decide) (by injection h4 with h; exact h.symm)
        · exact Event.noConfusion h4
  · intro ho
    rw [ho]
    simp

/-- The pool note is printed exactly when the pool create failed. -/
theorem pool_note_iff (cfg : Config) (env : Env) (hd : env.dryRun = false) :
    (Event.printEv "  (pool may already exist, continuing...)" ∈
      (setupWorkloadIdentity cfg env).2) ↔
      env.oracle (poolCreateCmd cfg) = false := by
  rw [setupWorkloadIdentity_trace cfg env hd]
  constructor
  · intro hm
    cases ho : env.oracle (poolCreateCmd cfg) with
    | false => rfl
    | true =>
      exfalso
      rw [ho] at hm
      cases ho2 : env.oracle (providerCreateCmd cfg) <;> rw [ho2] at hm <;>
        simp at hm
  · intro ho
    rw [ho]
    simp

/-- The provider note is printed exactly when the provider create failed. -/
theorem provider_note_iff (cfg : Config) (env : Env) (hd : env.dryRun = false) :
    (Event.printEv "  (provider may already exist, continuing...)" ∈
      (setupWorkloadIdentity cfg env).2) ↔
      env.oracle (providerCreateCmd cfg) = false := by
  rw [setupWorkloadIdentity_trace cfg env hd]
  constructor
  · intro hm
    cases ho : env.oracle (providerCreateCmd cfg) with
    | false => rfl
    | true =>
      exfalso
      rw [ho] at hm
      cases ho2 : env.oracle (poolCreateCmd cfg) <;> rw [ho2] at hm <;>
        simp at hm
  · intro ho
    rw [ho]
    cases ho2 : env.oracle (poolCreateCmd cfg) <;> simp

/-- The repository note is printed exactly when the repo create failed. -/
theorem repository_note_iff (cfg : Config) (env : Env) (hd : env.dryRun = false) :
    (Event.printEv "  (repository may already exist, continuing...)" ∈
      (createArtifactRegistry cfg env).2) ↔
      env.oracle (arCreateCmd cfg) = false := by
  rw [createArtifactRegistry_trace cfg env hd]
  constructor
  · intro hm
    cases ho : env.oracle (arCreateCmd cfg) with
    | false => rfl
    | true =>
      exfalso
      rw [ho] at hm
      simp only [if_pos, List.mem_cons, List.not_mem_nil, or_false] at hm
      rcases hm with h1 | h2
      · exact prefix_append_ne "  Creating repository: "
          cfg.artifactRegistryName
          "  (repository may already exist, continuing...)" 4
          (by decide) (by decide) (by injection h1 with h; exact h.symm)
      · exact Event.noConfusion h2
  · intro ho
    rw [ho]
    simp

/-! ## C3: idempotent-create failures are ignored, everything else fails
the step -/

/-- Claim C3: outside dry-run, the four idempotent creates (service
account, pool, OIDC provider, artifact repository) never fail their step —
each prints its "may already exist, continuing" note exactly when it
failed — and these are the only commands whose failure is tolerated:
every step's success is equivalent to the success of all its remaining
commands. -/
theorem idempotent_create_failures_ignored (cfg : Config) (env : Env)
    (hd : env.dryRun = false) :
    ((createServiceAccount cfg env).1 = .ok () ↔
      ∀ role ∈ saRoles, env.oracle (grantCmd cfg role) = true) ∧
    ((setupWorkloadIdentity cfg env).1 = .ok () ↔
      env.oracle (bindingCmd cfg) = true) ∧
    (createArtifactRegistry cfg env).1 = .ok () ∧
    ((enableAPIs cfg env).1 = .ok () ↔
      ∀ api ∈ setupAPIs, env.oracle (enableCmd cfg api) = true) ∧
    ((configureGitHub cfg env).1 = .ok () ↔
      ((∀ n ∈ env.secretOrder, env.oracle (secretSetCmd cfg n) = true) ∧
       (∀ n ∈ env.varOrder, env.oracle (varSetCmd cfg n) = true))) ∧
    ((Event.printEv "  (service account may already exist, continuing...)" ∈
        (createServiceAccount cfg env).2) ↔
      env.oracle (saCreateCmd cfg) = false) ∧
    ((Event.printEv "  (pool may already exist, continuing...)" ∈
        (setupWorkloadIdentity cfg env).2) ↔
      env.oracle (poolCreateCmd cfg) = false) ∧
    ((Event.printEv "  (provider may already exist, continuing...)" ∈
        (setupWorkloadIdentity cfg env).2) ↔
      env.oracle (providerCreateCmd cfg) = false) ∧
    ((Event.printEv "  (repository may already exist, continuing...)" ∈
        (createArtifactRegistry cfg env).2) ↔
      env.oracle (arCreateCmd cfg) = false) :=
  ⟨createServiceAccount_fst_ok_iff cfg env hd,
   setupWorkloadIdentity_fst_ok_iff cfg env hd,
   createArtifactRegistry_fst_ok cfg env,
   enableAPIs_fst_ok_iff cfg env hd,
   configureGitHub_fst_ok_iff cfg env hd,
   createServiceAccount_note_iff cfg env hd,
   pool_note_iff cfg env hd,
   provider_note_iff cfg env hd,
   repository_note_iff cfg env hd⟩

/-- Witness for C3 in an environment where every command fails: the
artifact-registry step still succeeds, and the repository note is
printed. -/
theorem idempotent_create_failures_ignored_witness :
    envFail.dryRun = false ∧
    (createArtifactRegistry cfg0 envFail).1 = .ok () ∧
    ((Event.printEv "  (repository may already exist, continuing...)" ∈
        (createArtifactRegistry cfg0 envFail).2) ↔
      envFail.oracle (arCreateCmd cfg0) = false) :=
  ⟨rfl,
   (idempotent_create_failures_ignored cfg0 envFail rfl).2.2.1,
   (idempotent_create_failures_ignored cfg0 envFail rfl).2.2.2.2.2.2.2.2⟩

/-! ## C6: the command sequence across runs -/

/-- The full trace of a dry run that passes all checks. -/
theorem runSetup_dry_trace (rc : RawConfig) (env : Env) (hd : env.dryRun = true)
    (hv : ValidateConfig rc = .ok ()) (hg : env.gcloudFound = true)
    (hgh : env.ghFound = true) (hauth : env.oracle ghAuthCmd = true) :
    (runSetup rc env).2 =
      .execEv ghAuthCmd :: (setupBanner (loadConfig rc) ++
        (dryRunStepsTrace (loadConfig rc) env.secretOrder env.varOrder ++
          setupSuccessTrailer)) := by
  have hsteps := dry_steps_eq (loadConfig rc) env hd
  simp [runSetup, bindM_eq_match, checkGcloud, checkGH, execC, hv, hg, hgh,
    hauth, hsteps]

set_option maxRecDepth 8000 in
set_option maxHeartbeats 2000000 in
/-- Counterexample to C6 as stated: two dry runs with identical
configuration, flags and command outcomes — differing only in the
iteration order Go's runtime chose for the secrets map, both orders being
permutations of the same two keys — print different sequences.  The order
in which the two GitHub secrets are set is NOT fixed. -/
theorem github_secret_order_counterexample :
    envDryA.dryRun = envDryB.dryRun ∧
    envDryA.oracle = envDryB.oracle ∧
    envDryA.gcloudFound = envDryB.gcloudFound ∧
    envDryA.ghFound = envDryB.ghFound ∧
    envDryA.varOrder = envDryB.varOrder ∧
    envDryA.secretOrder.Perm secretNames ∧
    envDryB.secretOrder.Perm secretNames ∧
    (runSetup rc0 envDryA).2 ≠ (runSetup rc0 envDryB).2 := by
  refine ⟨rfl, rfl, rfl, rfl, rfl, by decide, by decide, ?_⟩
  intro h
  rw [runSetup_dry_trace rc0 envDryA rfl rfl rfl rfl rfl,
    runSetup_dry_trace rc0 envDryB rfl rfl rfl rfl rfl] at h
  have h1 : dryRunStepsTrace (loadConfig rc0) envDryA.secretOrder envDryA.varOrder ++
        setupSuccessTrailer =
      dryRunStepsTrace (loadConfig rc0) envDryB.secretOrder envDryB.varOrder ++
        setupSuccessTrailer := by
    have h0 := (List.cons.injEq _ _ _ _).mp h
    exact List.append_cancel_left h0.2
  have h2 := List.append_cancel_right h1
  have h3 := congrArg (fun l => l.get? 51) h2
  exact absurd h3 (by decide)

set_option maxRecDepth 8000 in
set_option maxHeartbeats 2000000 in
/-- Claim C6 (amended): two runs of the setup command with identical
configuration and flags produce identical event traces — the same external
command invocations and printed lines, in the same order — whenever every
external command would have the same outcome and the Go runtime iterates
the two map literals of `configureGitHub` in the same order.  Under
`--dry-run` the five steps print a fixed sequence of lines in which only
the secrets block and the variables block follow the runtime's map
iteration orders, so the step traces of two dry runs whose map orders are
permutations of the map keys are permutations of each other.  Go's map
iteration order being unspecified, the relative order of the two secrets
(and of the three variables) may vary between runs. -/
theorem github_config_order (rc : RawConfig) (cfg : Config) (env1 env2 : Env) :
    (env1.dryRun = env2.dryRun → env1.oracle = env2.oracle →
     env1.gcloudFound = env2.gcloudFound → env1.ghFound = env2.ghFound →
     env1.secretOrder = env2.secretOrder → env1.varOrder = env2.varOrder →
     runSetup rc env1 = runSetup rc env2) ∧
    (env1.dryRun = true →
      runStepsFrom 5 1 setupSteps cfg env1 =
        (.ok (), dryRunStepsTrace cfg env1.secretOrder env1.varOrder)) ∧
    (env1.dryRun = true → env2.dryRun = true →
     env1.secretOrder.Perm secretNames → env2.secretOrder.Perm secretNames →
     env1.varOrder.Perm varNames → env2.varOrder.Perm varNames →
     ((runStepsFrom 5 1 setupSteps cfg env1).2).Perm
       ((runStepsFrom 5 1 setupSteps cfg env2).2)) := by
  refine ⟨?_, ?_, ?_⟩
  · intro hd ho hg hgh hso hvo
    have henv : env1 = env2 := by
      cases env1
      cases env2
      simp only [Env.mk.injEq]
      exact ⟨hd, ho, hg, hgh, hso, hvo⟩
    rw [henv]
  · intro h1
    exact dry_steps_eq cfg env1 h1
  · intro h1 h2 hs1 hs2 hv1 hv2
    have hso : env1.secretOrder.Perm env2.secretOrder := hs1.trans hs2.symm
    have hvo : env1.varOrder.Perm env2.varOrder := hv1.trans hv2.symm
    have e1 : (runStepsFrom 5 1 setupSteps cfg env1).2 =
        dryRunStepsTrace cfg env1.secretOrder env1.varOrder := by
      rw [dry_steps_eq cfg env1 h1]
    have e2 : (runStepsFrom 5 1 setupSteps cfg env2).2 =
        dryRunStepsTrace cfg env2.secretOrder env2.varOrder := by
      rw [dry_steps_eq cfg env2 h2]
    rw [e1, e2]
    unfold dryRunStepsTrace
    apply List.Perm.map
    unfold dryRunStepsLines
    simp only [List.append_assoc]
    iterate 15 refine List.Perm.append_left _ ?_
    refine List.Perm.append ((hso.map _).flatten) ?_
    refine List.Perm.append_left _ ?_
    exact List.Perm.append ((hvo.map _).flatten) (List.Perm.refl _)

/-- Witness for the amended C6: trace equality of two field-equal
environments, and the permutation of the two concrete dry-run step
traces. -/
theorem github_config_order_witness :
    runSetup rc0 envDryA = runSetup rc0 envDryA ∧
    ((runStepsFrom 5 1 setupSteps cfg0 envDryA).2).Perm
      ((runStepsFrom 5 1 setupSteps cfg0 envDryB).2) :=
  ⟨(github_config_order rc0 cfg0 envDryA envDryA).1 rfl rfl rfl rfl rfl rfl,
   (github_config_order rc0 cfg0 envDryA envDryB).2.2 rfl rfl (by decide)
     (by decide) (by decide) (by decide)⟩

/-! ## C5: which binaries the tool spawns — `CmdsOK` combinators -/

/-- `pureM` spawns nothing. -/
theorem cmdsOK_pureM {α : Type} (P : Env → Cmd → Prop) (a : α) :
    CmdsOK P (pureM a) := by
  intro env c hc
  simp [pureM] at hc

/-- `printE` spawns nothing. -/
theorem cmdsOK_printE (P : Env → Cmd → Prop) (s : String) :
    CmdsOK P (printE s) := by
  intro env c hc
  simp [printE] at hc

/-- `execC` spawns exactly its command. -/
theorem cmdsOK_execC (P : Env → Cmd → Prop) (c : Cmd)
    (h : ∀ env, P env c) : CmdsOK P (execC c) := by
  intro env c' hc
  unfold execC at hc
  cases ho : env.oracle c <;> rw [ho] at hc <;> simp at hc <;>
    exact hc ▸ h env

/-- `execOrFail` spawns exactly its command. -/
theorem cmdsOK_execOrFail (P : Env → Cmd → Prop) (c : Cmd)
    (wrap : String → String) (h : ∀ env, P env c) :
    CmdsOK P (execOrFail c wrap) := by
  intro env c' hc
  unfold execOrFail execC at hc
  cases ho : env.oracle c <;> rw [ho] at hc <;> simp at hc <;>
    exact hc ▸ h env

/-- `runCommandSilent` spawns its command only outside dry-run. -/
theorem cmdsOK_runCommandSilent (P : Env → Cmd → Prop) (c : Cmd)
    (h : ∀ env, env.dryRun = false → P env c) :
    CmdsOK P (runCommandSilent c) := by
  intro env c' hc
  unfold runCommandSilent execC at hc
  cases hd : env.dryRun <;> rw [hd] at hc
  · cases ho : env.oracle c <;> rw [ho] at hc <;> simp at hc <;>
      exact hc ▸ h env hd
  · simp at hc

/-- `bindM` spawns only what its parts spawn. -/
theorem cmdsOK_bindM {α β : Type} (P : Env → Cmd → Prop) {m : M α}
    {f : α → M β} (h1 : CmdsOK P m) (h2 : ∀ a, CmdsOK P (f a)) :
    CmdsOK P (bindM m f) := by
  intro env c hc
  rw [bindM_eq_match] at hc
  cases hm : m env with
  | mk r t =>
    rw [hm] at hc
    cases r with
    | ok a =>
      rcases List.mem_append.mp hc with hl | hr
      · exact h1 env c (by rw [hm]; exact hl)
      · exact h2 a env c hr
    | error e => exact h1 env c (by rw [hm]; exact hc)

/-- `forList` spawns only what its body spawns. -/
theorem cmdsOK_forList {α : Type} (P : Env → Cmd → Prop) {l : List α}
    {f : α → M Unit} (h : ∀ x ∈ l, CmdsOK P (f x)) :
    CmdsOK P (forList l f) := by
  induction l with
  | nil => exact cmdsOK_pureM P ()
  | cons x xs ih =>
    exact cmdsOK_bindM P (h x (List.mem_cons_self x xs))
      fun _ => ih fun y hy => h y (List.mem_cons_of_mem x hy)

/-- `tryIgnore` spawns only what its body spawns. -/
theorem cmdsOK_tryIgnore (P : Env → Cmd → Prop) {m : M Unit} (note : String)
    (h : CmdsOK P m) : CmdsOK P (tryIgnore m note) := by
  intro env c hc
  unfold tryIgnore at hc
  cases hm : m env with
  | mk r t =>
    rw [hm] at hc
    cases r with
    | ok a => exact h env c (by rw [hm]; exact hc)
    | error e =>
      rcases List.mem_append.mp hc with hl | hr
      · exact h env c (by rw [hm]; exact hl)
      · simp at hr

/-- `withEnv` spawns only what its body spawns. -/
theorem cmdsOK_withEnv {α : Type} (P : Env → Cmd → Prop) {f : Env → M α}
    (h : ∀ e, CmdsOK P (f e)) : CmdsOK P (withEnv f) := by
  intro env c hc
  exact h env env c hc

/-- `describeElse` spawns the describe command and what `rest` spawns. -/
theorem cmdsOK_describeElse (P : Env → Cmd → Prop) {dc : Cmd}
    {existsMsg : String} {rest : M Unit} (hdc : ∀ env, P env dc)
    (h : CmdsOK P rest) : CmdsOK P (describeElse dc existsMsg rest) := by
  intro env c hc
  unfold describeElse at hc
  cases ho : env.oracle dc with
  | false =>
    simp [execC, ho] at hc
    rcases hc with h1 | h1
    · exact h1 ▸ hdc env
    · exact h env c h1
  | true =>
    simp [execC, ho] at hc
    exact hc ▸ hdc env

/-- The steps loop spawns only what its steps spawn. -/
theorem cmdsOK_runStepsFrom {γ : Type} (P : Env → Cmd → Prop) (total : Nat)
    {l : List (String × (γ → M Unit))} {cfg : γ}
    (h : ∀ s ∈ l, CmdsOK P ((s.2) cfg)) :
    ∀ i, CmdsOK P (runStepsFrom total i l cfg) := by
  induction l with
  | nil =>
    intro i env c hc
    simp [runStepsFrom, pureM] at hc
  | cons s rest ih =>
    obtain ⟨n, f⟩ := s
    intro i env c hc
    cases hf : f cfg env with
    | mk r t =>
      cases r with
      | ok a =>
        cases a
        rw [runStepsFrom_cons_ok hf] at hc
        rcases List.mem_append.mp hc with h1 | h1
        · rcases List.mem_append.mp h1 with h2 | h2
          · rcases List.mem_append.mp h2 with h3 | h3
            · simp [stepHeader] at h3
            · refine h (n, f) (List.mem_cons_self _ _) env c ?_
              show Event.execEv c ∈ (f cfg env).2
              rw [hf]
              exact h3
          · simp at h2
        · exact ih (fun s hs => h s (List.mem_cons_of_mem _ hs)) (i + 1) env c h1
      | error e =>
        rw [runStepsFrom_cons_err hf] at hc
        rcases List.mem_append.mp hc with h1 | h1
        · simp [stepHeader] at h1
        · refine h (n, f) (List.mem_cons_self _ _) env c ?_
          show Event.execEv c ∈ (f cfg env).2
          rw [hf]
          exact h1

/-! ## C5: per-function spawn invariants -/

/-- `checkGH` spawns only `gh`. -/
theorem gg_checkGH : CmdsOK gcloudOrGh checkGH := by
  intro env c hc
  unfold checkGH at hc
  cases hgf : env.ghFound <;> simp [hgf] at hc
  cases ho : env.oracle ghAuthCmd <;> simp [execC, ho] at hc <;>
    exact hc ▸ Or.inr rfl

/-- `enableAPIs` spawns only `gcloud`. -/
theorem gg_enableAPIs (cfg : Config) : CmdsOK gcloudOrGh (enableAPIs cfg) :=
  cmdsOK_forList _ fun _ _ =>
    cmdsOK_bindM _ (cmdsOK_printE _ _) fun _ =>
      cmdsOK_runCommandSilent _ _ fun _ _ => Or.inl rfl

/-- `createServiceAccount` spawns only `gcloud`. -/
theorem gg_createServiceAccount (cfg : Config) :
    CmdsOK gcloudOrGh (createServiceAccount cfg) :=
  cmdsOK_bindM _ (cmdsOK_printE _ _) fun _ =>
    cmdsOK_bindM _
      (cmdsOK_tryIgnore _ _ (cmdsOK_runCommandSilent _ _ fun _ _ => Or.inl rfl))
      fun _ =>
        cmdsOK_forList _ fun _ _ =>
          cmdsOK_bindM _ (cmdsOK_printE _ _) fun _ =>
            cmdsOK_runCommandSilent _ _ fun _ _ => Or.inl rfl

/-- `setupWorkloadIdentity` spawns only `gcloud`. -/
theorem gg_setupWorkloadIdentity (cfg : Config) :
    CmdsOK gcloudOrGh (setupWorkloadIdentity cfg) :=
  cmdsOK_bindM _ (cmdsOK_printE _ _) fun _ =>
    cmdsOK_bindM _
      (cmdsOK_tryIgnore _ _ (cmdsOK_runCommandSilent _ _ fun _ _ => Or.inl rfl))
      fun _ =>
        cmdsOK_bindM _ (cmdsOK_printE _ _) fun _ =>
          cmdsOK_bindM _
            (cmdsOK_tryIgnore _ _
              (cmdsOK_runCommandSilent _ _ fun _ _ => Or.inl rfl)) fun _ =>
            cmdsOK_bindM _ (cmdsOK_printE _ _) fun _ =>
              cmdsOK_runCommandSilent _ _ fun _ _ => Or.inl rfl

/-- `createArtifactRegistry` spawns only `gcloud`. -/
theorem gg_createArtifactRegistry (cfg : Config) :
    CmdsOK gcloudOrGh (createArtifactRegistry cfg) :=
  cmdsOK_bindM _ (cmdsOK_printE _ _) fun _ =>
    cmdsOK_tryIgnore _ _ (cmdsOK_runCommandSilent _ _ fun _ _ => Or.inl rfl)

/-- `setSecret` spawns only `gh`. -/
theorem gg_setSecret (cfg : Config) (n : String) :
    CmdsOK gcloudOrGh (setSecret cfg n) := by
  refine cmdsOK_bindM _ (cmdsOK_printE _ _) fun _ => ?_
  intro env c hc
  cases hdd : env.dryRun <;> simp [hdd] at hc
  exact cmdsOK_execOrFail gcloudOrGh _ _ (fun _ => Or.inr rfl) env c hc

/-- `setVariable` spawns only `gh`. -/
theorem gg_setVariable (cfg : Config) (n : String) :
    CmdsOK gcloudOrGh (setVariable cfg n) := by
  refine cmdsOK_bindM _ (cmdsOK_printE _ _) fun _ => ?_
  intro env c hc
  cases hdd : env.dryRun <;> simp [hdd] at hc
  exact cmdsOK_execOrFail gcloudOrGh _ _ (fun _ => Or.inr rfl) env c hc

/-- `configureGitHub` spawns only `gh`. -/
theorem gg_configureGitHub (cfg : Config) :
    CmdsOK gcloudOrGh (configureGitHub cfg) :=
  cmdsOK_bindM _ (cmdsOK_printE _ _) fun _ =>
    cmdsOK_bindM _
      (cmdsOK_withEnv _ fun e =>
        cmdsOK_forList _ fun n _ => gg_setSecret cfg n) fun _ =>
      cmdsOK_bindM _ (cmdsOK_printE _ _) fun _ =>
        cmdsOK_withEnv _ fun e =>
          cmdsOK_forList _ fun n _ => gg_setVariable cfg n

/-- `runSetup` spawns only `gcloud` and `gh`. -/
theorem gg_runSetup (rc : RawConfig) : CmdsOK gcloudOrGh (runSetup rc) := by
  refine cmdsOK_bindM _ ?_ fun _ => cmdsOK_bindM _ ?_ fun _ =>
    cmdsOK_bindM _ gg_checkGH fun _ => cmdsOK_bindM _ ?_ fun _ =>
    cmdsOK_bindM _ ?_ fun _ => ?_
  · intro env c hc
    simp at hc
  · intro env c hc
    unfold checkGcloud at hc
    cases hg : env.gcloudFound <;> simp [hg] at hc
  · intro env c hc
    simp [setupBanner] at hc
  · refine cmdsOK_runStepsFrom _ 5 ?_ 1
    intro s hs
    simp only [setupSteps, List.mem_cons, List.not_mem_nil, or_false] at hs
    rcases hs with rfl | rfl | rfl | rfl | rfl
    · exact gg_enableAPIs _
    · exact gg_createServiceAccount _
    · exact gg_setupWorkloadIdentity _
    · exact gg_createArtifactRegistry _
    · exact gg_configureGitHub _
  · intro env c hc
    simp [setupSuccessTrailer] at hc

/-- `createGCPProject` spawns only `gcloud`. -/
theorem gg_createGCPProject (cfg : ProjectConfig) :
    CmdsOK gcloudOrGh (createGCPProject cfg) := by
  intro env c hc
  unfold createGCPProject at hc
  cases hdd : env.dryRun <;> simp [hdd] at hc
  exact (cmdsOK_bindM _ (cmdsOK_printE _ _) fun _ =>
    cmdsOK_bindM _ (cmdsOK_execOrFail _ _ _ fun _ => Or.inl rfl) fun _ =>
      cmdsOK_printE _ _) env c hc

/-- `enableProjectAPIs` spawns only `gcloud`. -/
theorem gg_enableProjectAPIs (cfg : ProjectConfig) :
    CmdsOK gcloudOrGh (enableProjectAPIs cfg) := by
  intro env c hc
  unfold enableProjectAPIs at hc
  cases hdd : env.dryRun <;> simp [hdd, List.mem_map] at hc
  exact (cmdsOK_bindM _ (cmdsOK_printE _ _) fun _ =>
    cmdsOK_bindM _
      (cmdsOK_forList _ fun _ _ =>
        cmdsOK_bindM _ (cmdsOK_printE _ _) fun _ =>
          cmdsOK_execOrFail _ _ _ fun _ => Or.inl rfl) fun _ =>
      cmdsOK_printE _ _) env c hc

/-- `createProjectServiceAccount` spawns only `gcloud`. -/
theorem gg_createProjectServiceAccount (cfg : ProjectConfig) :
    CmdsOK gcloudOrGh (createProjectServiceAccount cfg) := by
  intro env c hc
  unfold createProjectServiceAccount at hc
  cases hdd : env.dryRun <;> simp [hdd] at hc
  exact (cmdsOK_bindM _ (cmdsOK_printE _ _) fun _ =>
    cmdsOK_bindM _ (cmdsOK_execOrFail _ _ _ fun _ => Or.inl rfl) fun _ =>
      cmdsOK_printE _ _) env c hc

/-- `setupProjectWorkloadIdentity` spawns only `gcloud`. -/
theorem gg_setupProjectWorkloadIdentity (cfg : ProjectConfig) :
    CmdsOK gcloudOrGh (setupProjectWorkloadIdentity cfg) := by
  intro env c hc
  unfold setupProjectWorkloadIdentity at hc
  cases hdd : env.dryRun <;> simp [hdd] at hc
  exact (cmdsOK_bindM _ (cmdsOK_printE _ _) fun _ =>
    cmdsOK_bindM _ (cmdsOK_printE _ _) fun _ =>
    cmdsOK_bindM _ (cmdsOK_execOrFail _ _ _ fun _ => Or.inl rfl) fun _ =>
    cmdsOK_bindM _ (cmdsOK_printE _ _) fun _ =>
    cmdsOK_bindM _ (cmdsOK_execOrFail _ _ _ fun _ => Or.inl rfl) fun _ =>
      cmdsOK_printE _ _) env c hc

/-- `createProjectArtifactRegistry` spawns only `gcloud`. -/
theorem gg_createProjectArtifactRegistry (cfg : ProjectConfig) :
    CmdsOK gcloudOrGh (createProjectArtifactRegistry cfg) := by
  intro env c hc
  unfold createProjectArtifactRegistry at hc
  cases hdd : env.dryRun <;> simp [hdd] at hc
  exact (cmdsOK_bindM _ (cmdsOK_printE _ _) fun _ =>
    cmdsOK_bindM _ (cmdsOK_execOrFail _ _ _ fun _ => Or.inl rfl) fun _ =>
      cmdsOK_printE _ _) env c hc

/-- The project-create steps spawn only `gcloud`. -/
theorem gg_runProjectSteps (cfg : ProjectConfig) :
    CmdsOK gcloudOrGh (runProjectSteps cfg) := by
  refine cmdsOK_runStepsFrom _ 5 ?_ 1
  intro s hs
  simp only [projectSteps, List.mem_cons, List.not_mem_nil, or_false] at hs
  rcases hs with rfl | rfl | rfl | rfl | rfl
  · exact gg_createGCPProject _
  · exact gg_enableProjectAPIs _
  · exact gg_createProjectServiceAccount _
  · exact gg_setupProjectWorkloadIdentity _
  · exact gg_createProjectArtifactRegistry _

/-- `createHealthChecks` spawns only `gcloud`. -/
theorem gg_createHealthChecks (cfg : LoadBalancerConfig) :
    CmdsOK gcloudOrGh (createHealthChecks cfg) := by
  refine cmdsOK_forList _ fun service _ => ?_
  intro env c hc
  cases hdd : env.dryRun <;> simp [hdd] at hc
  exact cmdsOK_describeElse gcloudOrGh (fun _ => Or.inl rfl)
    (cmdsOK_bindM _ (cmdsOK_printE _ _) fun _ =>
      cmdsOK_bindM _ (cmdsOK_execOrFail _ _ _ fun _ => Or.inl rfl) fun _ =>
        cmdsOK_printE _ _) env c hc

/-- `createBackendServices` spawns only `gcloud`. -/
theorem gg_createBackendServices (cfg : LoadBalancerConfig) :
    CmdsOK gcloudOrGh (createBackendServices cfg) := by
  refine cmdsOK_forList _ fun service _ => ?_
  intro env c hc
  cases hdd : env.dryRun <;> simp [hdd] at hc
  exact cmdsOK_describeElse gcloudOrGh (fun _ => Or.inl rfl)
    (cmdsOK_bindM _ (cmdsOK_printE _ _) fun _ =>
      cmdsOK_bindM _ (cmdsOK_execOrFail _ _ _ fun _ => Or.inl rfl) fun _ =>
        cmdsOK_printE _ _) env c hc

/-- `createURLMap` spawns only `gcloud`. -/
theorem gg_createURLMap (cfg : LoadBalancerConfig) :
    CmdsOK gcloudOrGh (createURLMap cfg) := by
  intro env c hc
  unfold createURLMap at hc
  cases hdd : env.dryRun <;> simp [hdd] at hc
  exact cmdsOK_describeElse gcloudOrGh (fun _ => Or.inl rfl)
    (cmdsOK_bindM _ (cmdsOK_printE _ _) fun _ =>
      cmdsOK_bindM _ (cmdsOK_execOrFail _ _ _ fun _ => Or.inl rfl) fun _ =>
        cmdsOK_bindM _
          (cmdsOK_forList _ fun service _ =>
            cmdsOK_bindM _ (cmdsOK_printE _ _) fun _ =>
              cmdsOK_tryIgnore _ _ (cmdsOK_execC _ _ fun _ => Or.inl rfl))
          fun _ => cmdsOK_printE _ _) env c hc

/-- `createHTTPSProxy` spawns only `gcloud`. -/
theorem gg_createHTTPSProxy (cfg : LoadBalancerConfig) :
    CmdsOK gcloudOrGh (createHTTPSProxy cfg) := by
  intro env c hc
  unfold createHTTPSProxy at hc
  cases hdd : env.dryRun <;> simp [hdd] at hc
  refine cmdsOK_describeElse gcloudOrGh (fun _ => Or.inl rfl)
    (cmdsOK_bindM _ (cmdsOK_printE _ _) fun _ =>
      cmdsOK_bindM _ ?_ fun _ => cmdsOK_printE _ _) env c hc
  split
  · exact cmdsOK_execOrFail _ _ _ fun _ => Or.inl rfl
  · exact cmdsOK_execOrFail _ _ _ fun _ => Or.inl rfl

/-- `createForwardingRule` spawns only `gcloud`. -/
theorem gg_createForwardingRule (cfg : LoadBalancerConfig) :
    CmdsOK gcloudOrGh (createForwardingRule cfg) := by
  intro env c hc
  unfold createForwardingRule at hc
  cases hdd : env.dryRun <;> simp [hdd] at hc
  exact cmdsOK_describeElse gcloudOrGh (fun _ => Or.inl rfl)
    (cmdsOK_bindM _ (cmdsOK_printE _ _) fun _ =>
      cmdsOK_bindM _ (cmdsOK_execOrFail _ _ _ fun _ => Or.inl rfl) fun _ =>
        cmdsOK_printE _ _) env c hc

/-- The load-balancer steps spawn only `gcloud`. -/
theorem gg_runLBSteps (cfg : LoadBalancerConfig) :
    CmdsOK gcloudOrGh (runLBSteps cfg) := by
  refine cmdsOK_runStepsFrom _ 5 ?_ 1
  intro s hs
  simp only [lbSteps, List.mem_cons, List.not_mem_nil, or_false] at hs
  rcases hs with rfl | rfl | rfl | rfl | rfl
  · exact gg_createHealthChecks _
  · exact gg_createBackendServices _
  · exact gg_createURLMap _
  · exact gg_createHTTPSProxy _
  · exact gg_createForwardingRule _

/-- Claim C5: every external command spawned by the setup run, the
project-create steps or the load-balancer steps is an invocation of one of
exactly the two binaries `gcloud` and `gh`. -/
theorem only_gcloud_and_gh_spawned (rc : RawConfig) (pcfg : ProjectConfig)
    (lcfg : LoadBalancerConfig) (env : Env) (c : Cmd)
    (h : Event.execEv c ∈ (runSetup rc env).2 ∨
         Event.execEv c ∈ (runProjectSteps pcfg env).2 ∨
         Event.execEv c ∈ (runLBSteps lcfg env).2) :
    c.name = "gcloud" ∨ c.name = "gh" := by
  rcases h with h | h | h
  · exact gg_runSetup rc env c h
  · exact gg_runProjectSteps pcfg env c h
  · exact gg_runLBSteps lcfg env c h

/-- Witness for C5: the `gh auth status` spawn of a concrete run. -/
theorem only_gcloud_and_gh_spawned_witness :
    Event.execEv ghAuthCmd ∈ (runSetup rc0 envFail).2 ∧
    (ghAuthCmd.name = "gcloud" ∨ ghAuthCmd.name = "gh") :=
  ⟨by decide,
   only_gcloud_and_gh_spawned rc0 pcfg0 lcfg0 envFail ghAuthCmd
     (Or.inl (by decide))⟩

end GCSetup
